import Mathlib

/-!
# Pulumi templates: declaration passes of the Fargate and EKS-with-Flux programs

A shallow embedding of the three Go sources

* `scaffolder-templates/fargate/template/main.go`
* `scaffolder-templates/eks-with-flux-classic/template/main.go`
* `scaffolder-templates/eks-with-flux-classic/template/internal/gitops/flux.go`

Each program is a straight-line declaration pass over a `*pulumi.Context`.  The
context is modelled as an explicit state (`Context`) that logs every
registration the engine accepted, in program order, and every stack export.
Everything outside the repository (the engine and providers, the configuration
store, the file system, `cast.ToIntE`, `petname.Generate`,
`iam.GetPolicyDocument`) is a parameter: an `Engine` and an `Env`.

Deferred values (`pulumi.Output`) are modelled by the value they resolve to; a
resource handle carries the resolved output properties the engine reports.
-/

namespace PulumiTemplates

/-! ## Data model -/

/-- A Go `error` value, opaque to the programs: it is only ever passed on. -/
structure Error where
  msg : String
  deriving DecidableEq, Repr

/-- Property values: what `pulumi.String`, `pulumi.Int`, `pulumi.Bool`,
`pulumi.Map`, `pulumi.StringMap`, arrays and `pulumi.ToSecret` build;
`unresolved` is a deferred value whose callback does not return. -/
inductive Value where
  | null : Value
  | bool : Bool → Value
  | int : Int → Value
  | str : String → Value
  | list : List Value → Value
  | map : List (String × Value) → Value
  | secret : Value → Value
  | unresolved : Value

instance : Inhabited Value := ⟨Value.null⟩

/-- A `*string`-typed property (`pulumi.StringPtrOutput` used as an input). -/
def Value.ofPtr : Option String → Value
  | some s => Value.str s
  | none => Value.null

/-- The string a `*string`-typed property holds, `none` for anything else. -/
def Value.toPtr : Value → Option String
  | Value.str s => some s
  | _ => none

/-- Look a key up in a `pulumi.Map`; `null` for a missing key or a non-map. -/
def Value.field (v : Value) (key : String) : Value :=
  match v with
  | Value.map kvs => ((kvs.find? (fun kv => kv.1 == key)).map Prod.snd).getD Value.null
  | _ => Value.null

/-- The keys of a `pulumi.Map`, in declaration order. -/
def Value.keys : Value → List String
  | Value.map kvs => kvs.map Prod.fst
  | _ => []

/-- Resource options used by the programs; resources are referred to by the
name they were registered under. -/
inductive ResourceOption where
  | Parent (name : String)
  | DependsOn (names : List String)
  | Provider (name : String)
  | ProviderMap (providers : List (String × String))
  deriving DecidableEq, Repr

/-- One registration request sent to the engine: the SDK function called, the
resource name, its arguments and its options. -/
structure Call where
  fn : String
  name : String
  args : Value
  opts : List ResourceOption

instance : Inhabited Call := ⟨⟨"", "", Value.null, []⟩⟩

/-- Resolved output properties of a registered resource, by Go accessor path
(`"VpcId"`, `"Metadata.Name"`, ...), one table per Go output type. -/
structure Outputs where
  str : String → String
  ptr : String → Option String
  strs : String → List String
  any : String → Value

instance : Inhabited Outputs :=
  ⟨⟨fun _ => "", fun _ => none, fun _ => [], fun _ => Value.null⟩⟩

/-- A resource handle returned by a successful `NewXxx` call. -/
structure Resource where
  name : String
  out : Outputs

/-- The engine and its providers: every registration either fails with an
error or yields the resource's outputs. -/
abbrev Engine := Call → Except Error Outputs

/-- The `*pulumi.Context` state observable by a declaration pass: the
registrations accepted so far, in order, and the stack exports. -/
structure Context where
  declared : List Call
  exports : List (String × Value)

/-- The context a program starts from. -/
def Context.empty : Context := ⟨[], []⟩

/-- A `NewXxx(ctx, name, args, opts...)` call: on success the registration is
logged and a handle returned; on failure nothing is logged and the error is
returned. -/
def register (eng : Engine) (c : Call) (ctx : Context) : Except Error Resource × Context :=
  match eng c with
  | Except.ok out => (Except.ok ⟨c.name, out⟩, { ctx with declared := ctx.declared ++ [c] })
  | Except.error err => (Except.error err, ctx)

/-- The call `ctx.Export(name, value)`; it has no error result. -/
def Context.Export (ctx : Context) (name : String) (value : Value) : Context :=
  { ctx with exports := ctx.exports ++ [(name, value)] }

/-- Expansion of the `%s` verbs of a format, the only verb the programs use;
a verb without an operand prints Go's `%!s(MISSING)`. -/
def sprintfAux : List Char → List String → List Char
  | [], _ => []
  | [c], _ => [c]
  | c :: d :: fmt, args =>
    if c = '%' ∧ d = 's' then
      match args with
      | a :: args' => a.data ++ sprintfAux fmt args'
      | [] => "%!s(MISSING)".data ++ sprintfAux fmt []
    else c :: sprintfAux (d :: fmt) args

/-- The functions `fmt.Sprintf` / `pulumi.Sprintf` on string operands. -/
def Sprintf (format : String) (args : List String) : String :=
  ⟨sprintfAux format.data args⟩

/-- The method `StringPtrOutput.Elem()`: the pointee, or the empty string for nil. -/
def Elem : Option String → String
  | some s => s
  | none => ""

/-- The outputs the engine reports for a call it accepts. -/
def outputsOf (eng : Engine) (c : Call) : Outputs :=
  match eng c with
  | Except.ok out => out
  | Except.error _ => default

/-! ## `internal/gitops/flux.go` -/

namespace gitops

/-- The component `type Flux struct`. -/
structure Flux where
  name : String
  Namespace : String

/-- The struct `type FluxBootstrapArgs`. -/
structure FluxBootstrapArgs where
  RepoURL : String
  Branch : String
  Path : String

/-- The struct `type FluxArgs`. -/
structure FluxArgs where
  Version : String
  ClusterName : String
  Bootstrap : FluxBootstrapArgs

/-- The controller names ranged over by the patch loop. -/
def controllers : List String :=
  ["kustomize-controller", "helm-controller", "notification-controller",
   "source-controller", "image-reflector-controller", "image-automation-controller"]

/-- The label map `backStageLabel` (lines 39-41). -/
def backStageLabel (args : FluxArgs) : Value :=
  Value.map [("backstage.io/kubernetes-id", Value.str args.ClusterName)]

/-- The call `ctx.RegisterComponentResource("pkg:index:Flux", name, &flux, opts...)`. -/
def componentCall (name : String) (opts : List ResourceOption) : Call :=
  { fn := "ctx.RegisterComponentResource", name := name,
    args := Value.str "pkg:index:Flux", opts := opts }

/-- The call `helm.NewRelease(ctx, "pulumi-flux2", ...)` (lines 43-68). -/
def releaseCall (name : String) (args : FluxArgs) : Call :=
  { fn := "helm.NewRelease", name := "pulumi-flux2",
    args := Value.map [
      ("Chart", Value.str "oci://ghcr.io/fluxcd-community/charts/flux2"),
      ("Namespace", Value.str "flux-system"),
      ("CreateNamespace", Value.bool true),
      ("Version", Value.str args.Version),
      ("Values", Value.map [
        ("helmController", Value.map [("labels", backStageLabel args)]),
        ("kustomizeController", Value.map [("labels", backStageLabel args)]),
        ("notificationController", Value.map [("labels", backStageLabel args)]),
        ("sourceController", Value.map [("labels", backStageLabel args)]),
        ("imageReflectionController", Value.map [("labels", backStageLabel args)]),
        ("imageAutomationController", Value.map [("labels", backStageLabel args)])])],
    opts := [ResourceOption.Parent name] }

/-- The call `v12.NewDeploymentPatch(ctx, "pulumi-<controller>-patch", ...)` of
the loop body (lines 74-83). -/
def patchCall (name : String) (args : FluxArgs) (fluxHelm : Resource) (controller : String) :
    Call :=
  { fn := "v12.NewDeploymentPatch", name := Sprintf "pulumi-%s-patch" [controller],
    args := Value.map [
      ("Metadata", Value.map [
        ("Annotations", Value.map [("pulumi.com/patchForce", Value.str "true")]),
        ("Name", Value.str controller),
        ("Namespace", Value.ofPtr (fluxHelm.out.ptr "Namespace")),
        ("Labels", backStageLabel args)])],
    opts := [ResourceOption.Parent name, ResourceOption.DependsOn [fluxHelm.name]] }

/-- The call `apiextensions.NewCustomResource(ctx, "pulumi-bootstrap-repo", ...)`
(lines 89-109). -/
def repoCall (name : String) (args : FluxArgs) (fluxHelm : Resource) : Call :=
  { fn := "apiextensions.NewCustomResource", name := "pulumi-bootstrap-repo",
    args := Value.map [
      ("ApiVersion", Value.str "source.toolkit.fluxcd.io/v1"),
      ("Kind", Value.str "GitRepository"),
      ("Metadata", Value.map [
        ("Name", Value.str "bootstrap-repo"),
        ("Labels", Value.map [("backstage.io/kubernetes-id", Value.str "gitops-cluster")]),
        ("Namespace", Value.ofPtr (fluxHelm.out.ptr "Namespace"))]),
      ("OtherFields", Value.map [
        ("spec", Value.map [
          ("interval", Value.str "1m"),
          ("ref", Value.map [("branch", Value.str args.Bootstrap.Branch)]),
          ("timeout", Value.str "60s"),
          ("url", Value.str args.Bootstrap.RepoURL)])])],
    opts := [ResourceOption.Parent name, ResourceOption.DependsOn [fluxHelm.name]] }

/-- The call `apiextensions.NewCustomResource(ctx, "pulumi-bootstrap-kustomization", ...)`
(lines 113-137). -/
def kustomizationCall (name : String) (args : FluxArgs) (boostrapRepo : Resource) : Call :=
  { fn := "apiextensions.NewCustomResource", name := "pulumi-bootstrap-kustomization",
    args := Value.map [
      ("ApiVersion", Value.str "kustomize.toolkit.fluxcd.io/v1"),
      ("Kind", Value.str "Kustomization"),
      ("Metadata", Value.map [
        ("Name", Value.str "bootstrap-kustomization"),
        ("Labels", Value.map [("backstage.io/kubernetes-id", Value.str "gitops-cluster")]),
        ("Namespace", Value.ofPtr (boostrapRepo.out.ptr "Metadata.Namespace"))]),
      ("OtherFields", Value.map [
        ("spec", Value.map [
          ("force", Value.bool false),
          ("interval", Value.str "1m"),
          ("prune", Value.bool true),
          ("path", Value.str args.Bootstrap.Path),
          ("sourceRef", Value.map [
            ("kind", Value.ofPtr (boostrapRepo.out.ptr "Kind")),
            ("name", Value.ofPtr (boostrapRepo.out.ptr "Metadata.Name")),
            ("namespace", Value.ofPtr (boostrapRepo.out.ptr "Metadata.Namespace"))]),
          ("targetNamespace", Value.ofPtr (boostrapRepo.out.ptr "Metadata.Namespace"))])])],
    opts := [ResourceOption.Parent name] }

/-- The call `ctx.RegisterResourceOutputs(&flux, pulumi.Map{"namespace": flux.Namespace})`. -/
def outputsCall (flux : Flux) : Call :=
  { fn := "ctx.RegisterResourceOutputs", name := flux.name,
    args := Value.map [("namespace", Value.str flux.Namespace)], opts := [] }

/-- The loop `for _, controller := range ...` (lines 73-87), run over the
controllers still to be patched. -/
def patchLoop (eng : Engine) (name : String) (args : FluxArgs) (fluxHelm : Resource) :
    List String → Context → Except Error Unit × Context
  | [], ctx => (Except.ok (), ctx)
  | controller :: rest, ctx =>
    match register eng (patchCall name args fluxHelm controller) ctx with
    | (Except.error err, ctx) => (Except.error err, ctx)
    | (Except.ok _, ctx) => patchLoop eng name args fluxHelm rest ctx

/-- The function `NewFlux(ctx, name, args, opts...)`. -/
def NewFlux (eng : Engine) (name : String) (args : FluxArgs) (opts : List ResourceOption)
    (ctx : Context) : Except Error Flux × Context :=
  match register eng (componentCall name opts) ctx with
  | (Except.error err, ctx) => (Except.error err, ctx)
  | (Except.ok _, ctx) =>
  match register eng (releaseCall name args) ctx with
  | (Except.error err, ctx) => (Except.error err, ctx)
  | (Except.ok fluxHelm, ctx) =>
  match patchLoop eng name args fluxHelm controllers ctx with
  | (Except.error err, ctx) => (Except.error err, ctx)
  | (Except.ok _, ctx) =>
  match register eng (repoCall name args fluxHelm) ctx with
  | (Except.error err, ctx) => (Except.error err, ctx)
  | (Except.ok boostrapRepo, ctx) =>
  match register eng (kustomizationCall name args boostrapRepo) ctx with
  | (Except.error err, ctx) => (Except.error err, ctx)
  | (Except.ok _, ctx) =>
  let flux : Flux := { name := name, Namespace := Elem (fluxHelm.out.ptr "Namespace") }
  match register eng (outputsCall flux) ctx with
  | (Except.error err, ctx) => (Except.error err, ctx)
  | (Except.ok _, ctx) => (Except.ok flux, ctx)

/-- The component `NewFlux` returns when every call is accepted: its
`Namespace` is `fluxHelm.Namespace.Elem()` (line 142). -/
def fluxOf (eng : Engine) (name : String) (args : FluxArgs) : Flux :=
  { name := name
    Namespace := Elem ((outputsOf eng (releaseCall name args)).ptr "Namespace") }

/-- The calls of `NewFlux` in program order: component registration, Helm
release, the six patches, GitRepository, Kustomization, output registration.
Later calls take the outputs the engine reports for the release and the
GitRepository. -/
def fluxCalls (eng : Engine) (name : String) (args : FluxArgs) (opts : List ResourceOption) :
    List Call :=
  let fluxHelm : Resource := ⟨"pulumi-flux2", outputsOf eng (releaseCall name args)⟩
  let boostrapRepo : Resource :=
    ⟨"pulumi-bootstrap-repo", outputsOf eng (repoCall name args fluxHelm)⟩
  [componentCall name opts, releaseCall name args]
    ++ controllers.map (patchCall name args fluxHelm)
    ++ [repoCall name args fluxHelm, kustomizationCall name args boostrapRepo,
        outputsCall (fluxOf eng name args)]

end gitops

/-! ## `fargate/template/main.go` -/

namespace fargate

/-- The call `ecs.NewCluster(ctx, "ecs", nil)`. -/
def clusterCall : Call :=
  { fn := "ecs.NewCluster", name := "ecs", args := Value.null, opts := [] }

/-- The call `lb.NewApplicationLoadBalancer(ctx, "web", nil)`. -/
def loadBalancerCall : Call :=
  { fn := "lb.NewApplicationLoadBalancer", name := "web", args := Value.null, opts := [] }

/-- The call `ecs2.NewFargateService(ctx, "web", ...)` (lines 23-41). -/
def serviceCall (ecs applicationLoadBalancer : Resource) : Call :=
  { fn := "ecs2.NewFargateService", name := "web",
    args := Value.map [
      ("Cluster", Value.str (ecs.out.str "Arn")),
      ("AssignPublicIp", Value.bool true),
      ("TaskDefinitionArgs", Value.map [
        ("Container", Value.map [
          ("Name", Value.str "awsx-ecs"),
          ("Image", Value.str "amazon/amazon-ecs-sample"),
          ("Cpu", Value.int 512),
          ("Memory", Value.int 2048),
          ("Essential", Value.bool true),
          ("PortMappings", Value.list [
            Value.map [
              ("ContainerPort", Value.int 80),
              ("TargetGroup", applicationLoadBalancer.out.any "DefaultTargetGroup")]])])])],
    opts := [] }

/-- The function passed to `pulumi.Run` in the Fargate template. -/
def main (eng : Engine) (ctx : Context) : Except Error Unit × Context :=
  match register eng clusterCall ctx with
  | (Except.error err, ctx) => (Except.error err, ctx)
  | (Except.ok ecs, ctx) =>
  match register eng loadBalancerCall ctx with
  | (Except.error err, ctx) => (Except.error err, ctx)
  | (Except.ok applicationLoadBalancer, ctx) =>
  -- line 23: both results of `NewFargateService` are dropped
  let ctx := (register eng (serviceCall ecs applicationLoadBalancer) ctx).2
  let ctx := ctx.Export "frontendURL"
    (Value.str (Sprintf "http://%s" [applicationLoadBalancer.out.str "LoadBalancer.DnsName"]))
  (Except.ok (), ctx)

end fargate

/-! ## `eks-with-flux-classic/template/main.go` -/

namespace eks

/-- The struct `iam.GetPolicyDocumentStatementPrincipal` (field `Type` is `Typ` here). -/
structure GetPolicyDocumentStatementPrincipal where
  Typ : String
  Identifiers : List String
  deriving DecidableEq, Repr

/-- The struct `iam.GetPolicyDocumentStatementCondition`. -/
structure GetPolicyDocumentStatementCondition where
  Test : String
  Values : List String
  Variable : String
  deriving DecidableEq, Repr

/-- The struct `iam.GetPolicyDocumentStatement`, with the fields the program sets. -/
structure GetPolicyDocumentStatement where
  Effect : Option String
  Actions : List String
  Principals : List GetPolicyDocumentStatementPrincipal
  Conditions : List GetPolicyDocumentStatementCondition
  deriving DecidableEq, Repr

/-- The struct `iam.GetPolicyDocumentArgs`. -/
structure GetPolicyDocumentArgs where
  Statements : List GetPolicyDocumentStatement
  deriving DecidableEq, Repr

/-- The struct `iam.GetPolicyDocumentResult`, with the field the program reads. -/
structure GetPolicyDocumentResult where
  Json : String
  deriving DecidableEq, Repr

/-- What the program reads from outside the engine: the stack configuration
(by full key `namespace:key`), `cast.ToIntE`, `petname.Generate(3, "-")`,
`os.ReadFile` and the `iam.GetPolicyDocument` invoke (a Go result pair). -/
structure Env where
  project : String
  config : String → Option String
  toIntE : String → Option Int
  petname : String
  readFile : String → Except Error String
  getPolicyDocument : GetPolicyDocumentArgs → Option GetPolicyDocumentResult × Option Error

/-- A `*config.Config`: a namespace over the stack configuration. -/
structure Config where
  ns : String

/-- The function `config.New(ctx, namespace)`: the empty namespace means the project. -/
def Config.New (env : Env) (ns : String) : Config :=
  if ns = "" then ⟨env.project⟩ else ⟨ns⟩

/-- The full key `namespace:key`. -/
def Config.fullKey (c : Config) (key : String) : String :=
  c.ns ++ ":" ++ key

/-- The method `cfg.Try(key)`: the value, or an error when the key is missing. -/
def Config.Try (env : Env) (c : Config) (key : String) : Except Error String :=
  match env.config (c.fullKey key) with
  | some v => Except.ok v
  | none => Except.error ⟨"missing required configuration variable"⟩

/-- The method `cfg.TryInt(key)`: `Try` followed by `cast.ToIntE`. -/
def Config.TryInt (env : Env) (c : Config) (key : String) : Except Error Int :=
  match c.Try env key with
  | Except.error err => Except.error err
  | Except.ok v =>
    match env.toIntE v with
    | some n => Except.ok n
    | none => Except.error ⟨"unable to cast to int"⟩

/-- The method `cfg.Get(key)`: the value, or the empty string when the key is missing. -/
def Config.Get (env : Env) (c : Config) (key : String) : String :=
  (env.config (c.fullKey key)).getD ""

/-- The constant `albNamespace`. -/
def albNamespace : String := "aws-lb-controller"

/-- The constant `albServiceAccount`. -/
def albServiceAccount : String :=
  "system:serviceaccount:" ++ albNamespace ++ ":aws-lb-controller-serviceaccount"

/-- The argument of the `iam.GetPolicyDocument` call in the `ApplyT` callback. -/
def assumeRolePolicyArgs (arn url : String) : GetPolicyDocumentArgs :=
  { Statements := [
      { Effect := some "Allow"
        Actions := ["sts:AssumeRoleWithWebIdentity"]
        Principals := [{ Typ := "Federated", Identifiers := [arn] }]
        Conditions := [
          { Test := "StringEquals"
            Values := [albServiceAccount]
            Variable := Sprintf "%s:sub" [url] }] }] }

/-- The `ApplyT` callback computing `AssumeRolePolicy`: the error of
`GetPolicyDocument` is discarded and the result pointer dereferenced; `none`
is the nil dereference. -/
def assumeRolePolicy (env : Env) (arn url : String) : Option String :=
  match (env.getPolicyDocument (assumeRolePolicyArgs arn url)).1 with
  | some assumeRolePolicy => some assumeRolePolicy.Json
  | none => none

/-- The configuration values resolved at the top of `main`. -/
structure Settings where
  minClusterSize : Int
  maxClusterSize : Int
  desiredClusterSize : Int
  eksNodeInstanceType : String
  vpcNetworkCidr : String
  clusterName : String

/-- Lines 30-55 of `main`: read each key, falling back when `err != nil`. -/
def settings (env : Env) : Settings :=
  let cfg := Config.New env ""
  let minClusterSize := match cfg.TryInt env "minClusterSize" with
    | Except.ok v => v
    | Except.error _ => 3
  let maxClusterSize := match cfg.TryInt env "maxClusterSize" with
    | Except.ok v => v
    | Except.error _ => 6
  let desiredClusterSize := match cfg.TryInt env "desiredClusterSize" with
    | Except.ok v => v
    | Except.error _ => 3
  let eksNodeInstanceType := match cfg.Try env "eksNodeInstanceType" with
    | Except.ok v => v
    | Except.error _ => "t3.medium"
  let vpcNetworkCidr := match cfg.Try env "vpcNetworkCidr" with
    | Except.ok v => v
    | Except.error _ => "10.0.0.0/16"
  let clusterName := match cfg.Try env "clusterName" with
    | Except.ok v => v
    | Except.error _ => env.petname
  { minClusterSize, maxClusterSize, desiredClusterSize, eksNodeInstanceType,
    vpcNetworkCidr, clusterName }

/-- The format of the `values.yaml` entry of the Secret. -/
def valuesYamlFormat : String :=
  "clusterName: %s\nregion: %s\nserviceAccount:\n  annotations:\n    eks.amazonaws.com/role-arn: %s\nvpcId: %s"

/-- The call `ec2.NewVpc(ctx, "eks-vpc", ...)` (lines 58-61). -/
def vpcCall (cfg : Settings) : Call :=
  { fn := "ec2.NewVpc", name := "eks-vpc",
    args := Value.map [
      ("EnableDnsHostnames", Value.bool true),
      ("CidrBlock", Value.str cfg.vpcNetworkCidr)],
    opts := [] }

/-- The call `eks.NewCluster(ctx, "eks-cluster", ...)` (lines 67-83). -/
def clusterCall (cfg : Settings) (eksVpc : Resource) : Call :=
  { fn := "eks.NewCluster", name := "eks-cluster",
    args := Value.map [
      ("VpcId", Value.str (eksVpc.out.str "VpcId")),
      ("PublicSubnetIds", Value.list ((eksVpc.out.strs "PublicSubnetIds").map Value.str)),
      ("PrivateSubnetIds", Value.list ((eksVpc.out.strs "PrivateSubnetIds").map Value.str)),
      ("InstanceType", Value.str cfg.eksNodeInstanceType),
      ("DesiredCapacity", Value.int cfg.desiredClusterSize),
      ("MinSize", Value.int cfg.minClusterSize),
      ("MaxSize", Value.int cfg.maxClusterSize),
      ("NodeAssociatePublicIpAddress", Value.bool false),
      ("Name", Value.str cfg.clusterName),
      ("CreateOidcProvider", Value.bool true)],
    opts := [] }

/-- The call `iam.NewRole(ctx, "alb-role", ...)` (lines 92-125); an
`AssumeRolePolicy` whose callback does not return stays unresolved. -/
def roleCall (env : Env) (eksCluster : Resource) : Call :=
  { fn := "iam.NewRole", name := "alb-role",
    args := Value.map [
      ("AssumeRolePolicy",
        match assumeRolePolicy env (eksCluster.out.str "Core.OidcProvider.Arn")
            (eksCluster.out.str "Core.OidcProvider.Url") with
        | some json => Value.str json
        | none => Value.unresolved)],
    opts := [] }

/-- The call `iam.NewPolicy(ctx, "alb-policy", ...)` (lines 135-137). -/
def policyCall (albRole : Resource) (albPolicyFile : String) : Call :=
  { fn := "iam.NewPolicy", name := "alb-policy",
    args := Value.map [("Policy", Value.str albPolicyFile)],
    opts := [ResourceOption.DependsOn [albRole.name]] }

/-- The call `iam.NewRolePolicyAttachment(ctx, "alb-role-attachment", ...)` (lines 142-145). -/
def attachmentCall (albRole albIAMPolicy : Resource) : Call :=
  { fn := "iam.NewRolePolicyAttachment", name := "alb-role-attachment",
    args := Value.map [
      ("PolicyArn", Value.str (albIAMPolicy.out.str "Arn")),
      ("Role", Value.str (albRole.out.str "Name"))],
    opts := [ResourceOption.DependsOn [albIAMPolicy.name]] }

/-- The call `kubernetes.NewProvider(ctx, "kubernetes-provider", ...)` (lines 150-153). -/
def providerCall (eksCluster : Resource) : Call :=
  { fn := "kubernetes.NewProvider", name := "kubernetes-provider",
    args := Value.map [
      ("Kubeconfig", Value.str (eksCluster.out.str "KubeconfigJson")),
      ("EnableServerSideApply", Value.bool true)],
    opts := [ResourceOption.DependsOn [eksCluster.name]] }

/-- The `gitops.FluxArgs` literal of lines 158-165. -/
def fluxArgs (eksCluster : Resource) : gitops.FluxArgs :=
  { Version := "2.10.1"
    ClusterName := eksCluster.out.str "EksCluster.Name"
    Bootstrap :=
      { RepoURL := "https://github.com/my-backstage-demo/pulumi-gitops-repo.git"
        Branch := "main"
        Path := "./flux/clusters/aws" } }

/-- The options of the `gitops.NewFlux` call (lines 166-168). -/
def fluxOpts (k8sProvider : Resource) : List ResourceOption :=
  [ResourceOption.ProviderMap [("kubernetes", k8sProvider.name)]]

/-- The call `v1.NewSecret(ctx, "aws-lb-controller-secret", ...)` (lines 172-185). -/
def secretCall (env : Env) (awsConfig : Config)
    (eksVpc eksCluster albRole k8sProvider : Resource) (flux : gitops.Flux) : Call :=
  { fn := "v1.NewSecret", name := "aws-lb-controller-secret",
    args := Value.map [
      ("Metadata", Value.map [
        ("Name", Value.str "aws-load-balancer-controller-values"),
        ("Namespace", Value.str flux.Namespace)]),
      ("StringData", Value.map [
        ("values.yaml", Value.str (Sprintf valuesYamlFormat
          [eksCluster.out.str "EksCluster.Name", awsConfig.Get env "region",
           albRole.out.str "Arn", eksVpc.out.str "VpcId"]))])],
    opts := [ResourceOption.Provider k8sProvider.name] }

/-- The path of the IAM policy document read by `os.ReadFile`. -/
def albPolicyPath : String := "./iam-policies/alb-iam-policy.json"

/-- The function passed to `pulumi.Run` in the EKS-with-Flux template. -/
def main (env : Env) (eng : Engine) (ctx : Context) : Except Error Unit × Context :=
  let awsConfig := Config.New env "aws"
  let cfg := settings env
  match register eng (vpcCall cfg) ctx with
  | (Except.error err, ctx) => (Except.error err, ctx)
  | (Except.ok eksVpc, ctx) =>
  match register eng (clusterCall cfg eksVpc) ctx with
  | (Except.error err, ctx) => (Except.error err, ctx)
  | (Except.ok eksCluster, ctx) =>
  let ctx := ctx.Export "kubeconfig" (Value.secret (eksCluster.out.any "Kubeconfig"))
  match register eng (roleCall env eksCluster) ctx with
  | (Except.error err, ctx) => (Except.error err, ctx)
  | (Except.ok albRole, ctx) =>
  match env.readFile albPolicyPath with
  | Except.error err => (Except.error err, ctx)
  | Except.ok albPolicyFile =>
  match register eng (policyCall albRole albPolicyFile) ctx with
  | (Except.error err, ctx) => (Except.error err, ctx)
  | (Except.ok albIAMPolicy, ctx) =>
  match register eng (attachmentCall albRole albIAMPolicy) ctx with
  | (Except.error err, ctx) => (Except.error err, ctx)
  | (Except.ok _, ctx) =>
  match register eng (providerCall eksCluster) ctx with
  | (Except.error err, ctx) => (Except.error err, ctx)
  | (Except.ok k8sProvider, ctx) =>
  match gitops.NewFlux eng "flux" (fluxArgs eksCluster) (fluxOpts k8sProvider) ctx with
  | (Except.error err, ctx) => (Except.error err, ctx)
  | (Except.ok flux, ctx) =>
  match register eng (secretCall env awsConfig eksVpc eksCluster albRole k8sProvider flux) ctx with
  | (Except.error err, ctx) => (Except.error err, ctx)
  | (Except.ok _, ctx) => (Except.ok (), ctx)

/-- The handle of the VPC, with the outputs the engine reports for it. -/
def eksVpcOf (env : Env) (eng : Engine) : Resource :=
  ⟨"eks-vpc", outputsOf eng (vpcCall (settings env))⟩

/-- The handle of the cluster, with the outputs the engine reports for it. -/
def eksClusterOf (env : Env) (eng : Engine) : Resource :=
  ⟨"eks-cluster", outputsOf eng (clusterCall (settings env) (eksVpcOf env eng))⟩

/-- The handle of the role, with the outputs the engine reports for it. -/
def albRoleOf (env : Env) (eng : Engine) : Resource :=
  ⟨"alb-role", outputsOf eng (roleCall env (eksClusterOf env eng))⟩

/-- The handle of the policy, with the outputs the engine reports for it. -/
def albIAMPolicyOf (env : Env) (eng : Engine) (albPolicyFile : String) : Resource :=
  ⟨"alb-policy", outputsOf eng (policyCall (albRoleOf env eng) albPolicyFile)⟩

/-- The handle of the Kubernetes provider, with the outputs the engine reports for it. -/
def k8sProviderOf (env : Env) (eng : Engine) : Resource :=
  ⟨"kubernetes-provider", outputsOf eng (providerCall (eksClusterOf env eng))⟩

/-- The Secret call of a run in which every earlier call is accepted. -/
def secretOf (env : Env) (eng : Engine) : Call :=
  secretCall env (Config.New env "aws") (eksVpcOf env eng) (eksClusterOf env eng)
    (albRoleOf env eng) (k8sProviderOf env eng)
    (gitops.fluxOf eng "flux" (fluxArgs (eksClusterOf env eng)))

/-- The calls of `main` up to the read of the policy file, in program order. -/
def headCalls (env : Env) (eng : Engine) : List Call :=
  [vpcCall (settings env), clusterCall (settings env) (eksVpcOf env eng),
    roleCall env (eksClusterOf env eng)]

/-- The calls of `main` after the read of the policy file, in program order:
policy, attachment, provider, the calls of `NewFlux`, Secret. -/
def tailCalls (env : Env) (eng : Engine) (albPolicyFile : String) : List Call :=
  [policyCall (albRoleOf env eng) albPolicyFile,
    attachmentCall (albRoleOf env eng) (albIAMPolicyOf env eng albPolicyFile),
    providerCall (eksClusterOf env eng)]
    ++ gitops.fluxCalls eng "flux" (fluxArgs (eksClusterOf env eng))
        (fluxOpts (k8sProviderOf env eng))
    ++ [secretOf env eng]

/-- Every call `main` can make, in program order; the calls after the read of
the policy file are there only when the file is readable. -/
def mainCalls (env : Env) (eng : Engine) : List Call :=
  headCalls env eng ++
    match env.readFile albPolicyPath with
    | Except.ok albPolicyFile => tailCalls env eng albPolicyFile
    | Except.error _ => []

end eks

/-! ## Sample engines and inputs -/

/-- An engine that accepts every call and reports default outputs. -/
def accepting : Engine := fun _ => Except.ok default

/-- An engine that rejects the call registered under `name` and accepts every other. -/
def rejecting (name : String) : Engine := fun c =>
  if c.name = name then Except.error ⟨"rejected"⟩ else Except.ok default

/-- An engine that accepts every call and reports, for the identity of an
object and the namespace of a release, what was declared. -/
def echoing : Engine := fun c =>
  Except.ok
    { str := fun _ => ""
      ptr := fun path =>
        if path = "Kind" then (c.args.field "Kind").toPtr
        else if path = "Metadata.Name" then ((c.args.field "Metadata").field "Name").toPtr
        else if path = "Metadata.Namespace" then
          ((c.args.field "Metadata").field "Namespace").toPtr
        else if path = "Namespace" then (c.args.field "Namespace").toPtr
        else none
      strs := fun _ => []
      any := fun _ => Value.null }

/-- The provider reports a custom resource under the kind, name and namespace
it was declared with. -/
def ReportsDeclaredIdentity (eng : Engine) : Prop :=
  ∀ c out, c.fn = "apiextensions.NewCustomResource" → eng c = Except.ok out →
    out.ptr "Kind" = (c.args.field "Kind").toPtr ∧
    out.ptr "Metadata.Name" = ((c.args.field "Metadata").field "Name").toPtr ∧
    out.ptr "Metadata.Namespace" = ((c.args.field "Metadata").field "Namespace").toPtr

/-- An engine that rejects every call to the SDK function `fn` and accepts every other. -/
def rejectingFn (fn : String) : Engine := fun c =>
  if c.fn = fn then Except.error ⟨"rejected"⟩ else Except.ok default

/-- Sample arguments for `NewFlux`. -/
def sampleFluxArgs : gitops.FluxArgs :=
  { Version := "2.10.1", ClusterName := "demo",
    Bootstrap := { RepoURL := "https://example.org/repo.git", Branch := "main", Path := "./flux" } }

/-- An environment with an empty configuration, a readable policy file and a
working `GetPolicyDocument`. -/
def sampleEnv : eks.Env :=
  { project := "demo"
    config := fun _ => none
    toIntE := fun v =>
      if v = "1" then some 1 else if v = "5" then some 5 else if v = "9" then some 9 else none
    petname := "quick-brown-fox"
    readFile := fun _ => Except.ok "\x7b\x7d"
    getPolicyDocument := fun _ => (some ⟨"\x7b\x7d"⟩, none) }

/-- A rendering of a policy request, one field after the other. -/
def renderPolicy (a : eks.GetPolicyDocumentArgs) : String :=
  String.intercalate ";" (a.Statements.map fun s =>
    String.intercalate "|"
      (s.Effect.getD "" :: s.Actions
        ++ (s.Principals.map fun p => String.intercalate "," (p.Typ :: p.Identifiers))
        ++ (s.Conditions.map fun c => String.intercalate "," (c.Test :: c.Variable :: c.Values))))

/-- The sample environment with a `GetPolicyDocument` that returns the
rendering of the request it receives. -/
def renderingEnv : eks.Env :=
  { sampleEnv with getPolicyDocument := fun a => (some ⟨renderPolicy a⟩, none) }

/-- An engine that accepts every call and reports a fixed OIDC provider ARN
and issuer URL. -/
def oidcEngine : Engine := fun _ =>
  Except.ok
    { str := fun path =>
        if path = "Core.OidcProvider.Arn" then "arn:aws:iam::123456789012:oidc-provider/oidc.example"
        else if path = "Core.OidcProvider.Url" then "oidc.example/id/EXAMPLE"
        else ""
      ptr := fun _ => none
      strs := fun _ => []
      any := fun _ => Value.null }

/-- The sample environment without a readable policy file. -/
def noPolicyFile : eks.Env :=
  { sampleEnv with readFile := fun _ => Except.error ⟨"no such file"⟩ }

/-- The sample environment with a failing `GetPolicyDocument` invoke. -/
def policyLookupFails : eks.Env :=
  { sampleEnv with getPolicyDocument := fun _ => (none, some ⟨"invoke failed"⟩) }

/-- The sample environment with sizes out of order: minimum 9, maximum 1, desired 5. -/
def unorderedSizes : eks.Env :=
  { sampleEnv with
    config := fun key =>
      if key = "demo:minClusterSize" then some "9"
      else if key = "demo:maxClusterSize" then some "1"
      else if key = "demo:desiredClusterSize" then some "5"
      else none }

/-! ## Reference semantics of a straight-line pass -/

/-- Send the calls in order, stopping at the first one the engine rejects. -/
def runCalls (eng : Engine) : List Call → Context → Option Error × Context
  | [], ctx => (none, ctx)
  | c :: cs, ctx =>
    match eng c with
    | Except.ok _ => runCalls eng cs { ctx with declared := ctx.declared ++ [c] }
    | Except.error err => (some err, ctx)

/-- The error of a Go result pair, `none` for `nil`. -/
def errOf {α : Type} : Except Error α → Option Error
  | Except.ok _ => none
  | Except.error err => some err

/-! ## Lemmas on the reference semantics -/

theorem runCalls_nil (eng : Engine) (ctx : Context) : runCalls eng [] ctx = (none, ctx) := rfl

theorem runCalls_cons_ok (eng : Engine) (c : Call) (cs : List Call) (ctx : Context)
    (out : Outputs) (h : eng c = Except.ok out) :
    runCalls eng (c :: cs) ctx = runCalls eng cs { ctx with declared := ctx.declared ++ [c] } := by
  simp [runCalls, h]

theorem runCalls_cons_error (eng : Engine) (c : Call) (cs : List Call) (ctx : Context)
    (err : Error) (h : eng c = Except.error err) :
    runCalls eng (c :: cs) ctx = (some err, ctx) := by
  simp [runCalls, h]

theorem runCalls_append (eng : Engine) (cs tl : List Call) (ctx : Context) :
    runCalls eng (cs ++ tl) ctx =
      match runCalls eng cs ctx with
      | (some err, ctx1) => (some err, ctx1)
      | (none, ctx1) => runCalls eng tl ctx1 := by
  induction cs generalizing ctx with
  | nil => simp [runCalls]
  | cons c cs ih =>
    simp only [List.cons_append, runCalls]
    cases eng c with
    | ok out => simpa using ih _
    | error err => simp

theorem runCalls_all_ok (eng : Engine) (cs : List Call) (ctx : Context)
    (h : ∀ c ∈ cs, ∃ out, eng c = Except.ok out) :
    runCalls eng cs ctx = (none, { ctx with declared := ctx.declared ++ cs }) := by
  induction cs generalizing ctx with
  | nil => simp [runCalls]
  | cons c cs ih =>
    obtain ⟨out, hc⟩ := h c (List.mem_cons_self _ _)
    simp only [runCalls, hc]
    rw [ih _ (fun d hd => h d (List.mem_cons_of_mem _ hd))]
    simp

theorem runCalls_first_failure (eng : Engine) (cs : List Call) (ctx : Context) (k : Nat)
    (e : Error) (hk : k < cs.length)
    (hok : ∀ j, j < k → ∃ out, eng (cs.getD j default) = Except.ok out)
    (hfail : eng (cs.getD k default) = Except.error e) :
    runCalls eng cs ctx = (some e, { ctx with declared := ctx.declared ++ cs.take k }) := by
  induction cs generalizing ctx k with
  | nil => simp at hk
  | cons c cs ih =>
    cases k with
    | zero =>
      simp only [List.getD_cons_zero] at hfail
      simp [runCalls, hfail]
    | succ k =>
      obtain ⟨out, hc⟩ := hok 0 (Nat.succ_pos k)
      simp only [List.getD_cons_zero] at hc
      simp only [runCalls, hc]
      have hk1 : k < cs.length := by simpa using hk
      rw [ih _ k hk1 (fun j hj => by simpa using hok (j + 1) (Nat.succ_lt_succ hj))
        (by simpa using hfail)]
      simp

theorem runCalls_eq_none (eng : Engine) (cs : List Call) (ctx : Context)
    (h : (runCalls eng cs ctx).1 = none) :
    (runCalls eng cs ctx).2 = { ctx with declared := ctx.declared ++ cs } ∧
      ∀ c ∈ cs, ∃ out, eng c = Except.ok out := by
  induction cs generalizing ctx with
  | nil => simp [runCalls]
  | cons c cs ih =>
    cases hc : eng c with
    | error err => simp [runCalls, hc] at h
    | ok out =>
      rw [runCalls_cons_ok _ _ _ _ _ hc] at h ⊢
      obtain ⟨h1, h2⟩ := ih _ h
      refine ⟨by simpa using h1, ?_⟩
      intro d hd
      rcases List.mem_cons.mp hd with rfl | hd
      · exact ⟨out, hc⟩
      · exact h2 d hd

theorem runCalls_eq_some (eng : Engine) (cs : List Call) (ctx : Context) (e : Error)
    (h : (runCalls eng cs ctx).1 = some e) :
    ∃ k, k < cs.length ∧ eng (cs.getD k default) = Except.error e ∧
      (∀ j, j < k → ∃ out, eng (cs.getD j default) = Except.ok out) ∧
      (runCalls eng cs ctx).2 = { ctx with declared := ctx.declared ++ cs.take k } := by
  induction cs generalizing ctx with
  | nil => simp [runCalls] at h
  | cons c cs ih =>
    cases hc : eng c with
    | error err =>
      rw [runCalls_cons_error _ _ _ _ _ hc] at h ⊢
      simp only [Option.some.injEq] at h
      subst h
      exact ⟨0, by simp, by simpa using hc, by simp, by simp⟩
    | ok out =>
      rw [runCalls_cons_ok _ _ _ _ _ hc] at h ⊢
      obtain ⟨k, hk, hf, hok, hd⟩ := ih _ h
      refine ⟨k + 1, by simpa using hk, by simpa using hf, ?_, by simpa using hd⟩
      intro j hj
      cases j with
      | zero => exact ⟨out, by simpa using hc⟩
      | succ j => simpa using hok j (by omega)

theorem runCalls_exports (eng : Engine) (cs : List Call) (ctx : Context)
    (ex : List (String × Value)) :
    runCalls eng cs { declared := ctx.declared, exports := ex } =
      ((runCalls eng cs ctx).1,
        { declared := (runCalls eng cs ctx).2.declared, exports := ex }) := by
  induction cs generalizing ctx with
  | nil => simp [runCalls]
  | cons c cs ih =>
    cases hc : eng c with
    | error err => simp [runCalls, hc]
    | ok out =>
      rw [runCalls_cons_ok _ _ _ _ _ hc, runCalls_cons_ok _ _ _ _ _ hc]
      exact ih { declared := ctx.declared ++ [c], exports := ctx.exports }

theorem runCalls_declared_take (eng : Engine) (cs : List Call) (ctx : Context) :
    ∃ k, k ≤ cs.length ∧ (runCalls eng cs ctx).2.declared = ctx.declared ++ cs.take k ∧
      (runCalls eng cs ctx).2.exports = ctx.exports ∧
      ((runCalls eng cs ctx).1 = none → k = cs.length) := by
  induction cs generalizing ctx with
  | nil => exact ⟨0, by simp [runCalls]⟩
  | cons c cs ih =>
    simp only [runCalls]
    cases eng c with
    | error err => exact ⟨0, by simp⟩
    | ok out =>
      obtain ⟨k, hk, hd, he, hn⟩ := ih { ctx with declared := ctx.declared ++ [c] }
      refine ⟨k + 1, by simpa using hk, ?_, ?_, ?_⟩
      · simpa using hd
      · simpa using he
      · intro h; simpa using hn h

namespace gitops

theorem patchLoop_runCalls (eng : Engine) (name : String) (args : FluxArgs)
    (fluxHelm : Resource) (cs : List String) (ctx : Context) :
    (errOf (patchLoop eng name args fluxHelm cs ctx).1,
      (patchLoop eng name args fluxHelm cs ctx).2)
      = runCalls eng (cs.map (patchCall name args fluxHelm)) ctx := by
  induction cs generalizing ctx with
  | nil => simp [patchLoop, runCalls, errOf]
  | cons c cs ih =>
    simp only [patchLoop, List.map_cons, runCalls, register]
    cases eng (patchCall name args fluxHelm c) with
    | ok out => simpa using ih _
    | error err => simp [errOf]

theorem NewFlux_eq (eng : Engine) (name : String) (args : FluxArgs)
    (opts : List ResourceOption) (ctx : Context) :
    NewFlux eng name args opts ctx =
      ((match (runCalls eng (fluxCalls eng name args opts) ctx).1 with
        | some err => Except.error err
        | none => Except.ok (fluxOf eng name args)),
       (runCalls eng (fluxCalls eng name args opts) ctx).2) := by
  unfold NewFlux fluxCalls fluxOf
  generalize controllers = cs
  simp only [List.cons_append, List.nil_append, runCalls, register]
  cases h0 : eng (componentCall name opts) with
  | error err => simp
  | ok out0 =>
    cases h1 : eng (releaseCall name args) with
    | error err => simp
    | ok out1 =>
      have hn : (releaseCall name args).name = "pulumi-flux2" := rfl
      simp only [outputsOf, h1, hn, List.append_eq, List.nil_append]
      rw [runCalls_append, ← patchLoop_runCalls]
      rcases hp : patchLoop eng name args ⟨"pulumi-flux2", out1⟩ cs
        { declared := (ctx.declared ++ [componentCall name opts]) ++ [releaseCall name args],
          exports := ctx.exports } with ⟨r, ctx2⟩
      cases r with
      | error err => simp [errOf]
      | ok u =>
        simp only [errOf, runCalls]
        cases h2 : eng (repoCall name args ⟨"pulumi-flux2", out1⟩) with
        | error err => simp
        | ok out2 =>
          have hr : (repoCall name args ⟨"pulumi-flux2", out1⟩).name
              = "pulumi-bootstrap-repo" := rfl
          simp only [hr]
          cases h3 : eng (kustomizationCall name args ⟨"pulumi-bootstrap-repo", out2⟩) with
          | error err => simp
          | ok out3 =>
            simp only []
            cases h4 : eng (outputsCall
                { name := name, Namespace := Elem (out1.ptr "Namespace") }) with
            | error err => simp
            | ok out4 => simp

end gitops

namespace eks

theorem main_eq (env : Env) (eng : Engine) (ctx : Context) :
    main env eng ctx =
      match runCalls eng ((headCalls env eng).take 2) ctx with
      | (some err, ctx1) => (Except.error err, ctx1)
      | (none, ctx1) =>
        match runCalls eng ((headCalls env eng).drop 2)
          (ctx1.Export "kubeconfig"
            (Value.secret ((eksClusterOf env eng).out.any "Kubeconfig"))) with
        | (some err, ctx2) => (Except.error err, ctx2)
        | (none, ctx2) =>
          match env.readFile albPolicyPath with
          | Except.error err => (Except.error err, ctx2)
          | Except.ok albPolicyFile =>
            match runCalls eng (tailCalls env eng albPolicyFile) ctx2 with
            | (some err, ctx3) => (Except.error err, ctx3)
            | (none, ctx3) => (Except.ok (), ctx3) := by
  unfold main headCalls tailCalls secretOf k8sProviderOf albIAMPolicyOf albRoleOf eksClusterOf
    eksVpcOf
  simp only [List.take, List.drop, register]
  cases h0 : eng (vpcCall (settings env)) with
  | error err => simp [runCalls_cons_error _ _ _ _ _ h0]
  | ok out0 =>
    have hn0 : (vpcCall (settings env)).name = "eks-vpc" := rfl
    simp only [outputsOf, h0, hn0, runCalls_cons_ok _ _ _ _ _ h0]
    cases h1 : eng (clusterCall (settings env) ⟨"eks-vpc", out0⟩) with
    | error err => simp [runCalls_cons_error _ _ _ _ _ h1]
    | ok out1 =>
      have hn1 : (clusterCall (settings env) ⟨"eks-vpc", out0⟩).name = "eks-cluster" := rfl
      simp only [hn1, runCalls_cons_ok _ _ _ _ _ h1, runCalls_nil]
      cases h2 : eng (roleCall env ⟨"eks-cluster", out1⟩) with
      | error err => simp [runCalls_cons_error _ _ _ _ _ h2]
      | ok out2 =>
        have hn2 : (roleCall env ⟨"eks-cluster", out1⟩).name = "alb-role" := rfl
        simp only [hn2, runCalls_cons_ok _ _ _ _ _ h2, runCalls_nil]
        cases h3 : env.readFile albPolicyPath with
        | error err => simp
        | ok albPolicyFile =>
          simp only [List.cons_append, List.nil_append]
          cases h4 : eng (policyCall ⟨"alb-role", out2⟩ albPolicyFile) with
          | error err => simp [runCalls_cons_error _ _ _ _ _ h4]
          | ok out4 =>
            have hn4 : (policyCall ⟨"alb-role", out2⟩ albPolicyFile).name = "alb-policy" := rfl
            simp only [hn4, runCalls_cons_ok _ _ _ _ _ h4]
            cases h5 : eng (attachmentCall ⟨"alb-role", out2⟩ ⟨"alb-policy", out4⟩) with
            | error err => simp [runCalls_cons_error _ _ _ _ _ h5]
            | ok out5 =>
              simp only [runCalls_cons_ok _ _ _ _ _ h5]
              cases h6 : eng (providerCall ⟨"eks-cluster", out1⟩) with
              | error err => simp [runCalls_cons_error _ _ _ _ _ h6]
              | ok out6 =>
                have hn6 : (providerCall ⟨"eks-cluster", out1⟩).name
                    = "kubernetes-provider" := rfl
                simp only [hn6, runCalls_cons_ok _ _ _ _ _ h6]
                rw [runCalls_append, gitops.NewFlux_eq]
                simp only [Context.Export, List.append_assoc, List.cons_append,
                  List.nil_append]
                generalize runCalls eng (gitops.fluxCalls eng "flux" _ _) _ = r
                rcases r with ⟨r, ctx3⟩
                cases r with
                | some err => simp
                | none =>
                  simp only []
                  cases h7 : eng (secretCall env (Config.New env "aws") ⟨"eks-vpc", out0⟩
                      ⟨"eks-cluster", out1⟩ ⟨"alb-role", out2⟩ ⟨"kubernetes-provider", out6⟩
                      (gitops.fluxOf eng "flux" (fluxArgs ⟨"eks-cluster", out1⟩))) with
                  | error err => simp [runCalls_cons_error _ _ _ _ _ h7]
                  | ok out7 => simp [runCalls_cons_ok _ _ _ _ _ h7, runCalls_nil]

theorem main_runCalls (env : Env) (eng : Engine) (ctx : Context) :
    (main env eng ctx).2.declared = (runCalls eng (mainCalls env eng) ctx).2.declared ∧
    (main env eng ctx).1 =
      match (runCalls eng (mainCalls env eng) ctx).1 with
      | some err => Except.error err
      | none =>
        match env.readFile albPolicyPath with
        | Except.ok _ => Except.ok ()
        | Except.error err => Except.error err := by
  have hsplit : mainCalls env eng = (headCalls env eng).take 2 ++ ((headCalls env eng).drop 2 ++
      match env.readFile albPolicyPath with
      | Except.ok albPolicyFile => tailCalls env eng albPolicyFile
      | Except.error _ => []) := by
    rw [← List.append_assoc, List.take_append_drop]
    rfl
  rw [main_eq, hsplit, runCalls_append]
  rcases h1 : runCalls eng ((headCalls env eng).take 2) ctx with ⟨r1, c1⟩
  cases r1 with
  | some err => simp
  | none =>
    simp only [Context.Export]
    rw [runCalls_append, runCalls_exports eng _ c1]
    rcases h2 : runCalls eng ((headCalls env eng).drop 2) c1 with ⟨r2, c2⟩
    cases r2 with
    | some err => simp
    | none =>
      cases h3 : env.readFile albPolicyPath with
      | error err => simp [runCalls_nil]
      | ok f =>
        simp only []
        rw [runCalls_exports eng _ c2]
        rcases h4 : runCalls eng (tailCalls env eng f) c2 with ⟨r3, c3⟩
        cases r3 <;> simp

end eks

namespace eks

theorem main_ok (env : Env) (eng : Engine) (ctx ctx1 : Context)
    (hrun : main env eng ctx = (Except.ok (), ctx1)) :
    ∃ f, env.readFile albPolicyPath = Except.ok f ∧
      ctx1.declared = ctx.declared ++ (headCalls env eng ++ tailCalls env eng f) ∧
      ∀ c ∈ headCalls env eng ++ tailCalls env eng f, ∃ out, eng c = Except.ok out := by
  obtain ⟨hd, hr⟩ := main_runCalls env eng ctx
  rw [hrun] at hd hr
  simp only at hd hr
  cases h : (runCalls eng (mainCalls env eng) ctx).1 with
  | some err => rw [h] at hr; cases hr
  | none =>
    rw [h] at hr
    cases hf : env.readFile albPolicyPath with
    | error e => rw [hf] at hr; cases hr
    | ok f =>
      have hcalls : mainCalls env eng = headCalls env eng ++ tailCalls env eng f := by
        simp [mainCalls, hf]
      rw [hcalls] at h hd
      obtain ⟨h1, h2⟩ := runCalls_eq_none eng _ ctx h
      exact ⟨f, rfl, by rw [hd, h1], h2⟩

theorem main_declared_mem (env : Env) (eng : Engine) (c : Call)
    (hc : c ∈ (main env eng Context.empty).2.declared) : c ∈ mainCalls env eng := by
  obtain ⟨hd, -⟩ := main_runCalls env eng Context.empty
  obtain ⟨k, -, hk, -, -⟩ := runCalls_declared_take eng (mainCalls env eng) Context.empty
  rw [hd, hk] at hc
  simp only [Context.empty, List.nil_append] at hc
  exact List.mem_of_mem_take hc

theorem mainCalls_vpc (env : Env) (eng : Engine) :
    (mainCalls env eng).filter (fun c => c.fn == "ec2.NewVpc") = [vpcCall (settings env)] := by
  unfold mainCalls
  cases env.readFile albPolicyPath <;> rfl

theorem mainCalls_cluster (env : Env) (eng : Engine) :
    (mainCalls env eng).filter (fun c => c.fn == "eks.NewCluster")
      = [clusterCall (settings env) (eksVpcOf env eng)] := by
  unfold mainCalls
  cases env.readFile albPolicyPath <;> rfl

theorem main_declares_cluster (env : Env) (eng : Engine) (out0 out1 : Outputs)
    (h0 : eng (vpcCall (settings env)) = Except.ok out0)
    (h1 : eng (clusterCall (settings env) ⟨"eks-vpc", out0⟩) = Except.ok out1) :
    vpcCall (settings env) ∈ (main env eng Context.empty).2.declared ∧
    clusterCall (settings env) ⟨"eks-vpc", out0⟩
      ∈ (main env eng Context.empty).2.declared := by
  obtain ⟨hd, -⟩ := main_runCalls env eng Context.empty
  have hv : eksVpcOf env eng = ⟨"eks-vpc", out0⟩ := by simp [eksVpcOf, outputsOf, h0]
  have hm : mainCalls env eng = vpcCall (settings env) ::
      clusterCall (settings env) ⟨"eks-vpc", out0⟩ :: (mainCalls env eng).drop 2 := by
    rw [← hv]
    unfold mainCalls headCalls
    rfl
  rw [hd, hm, runCalls_cons_ok _ _ _ _ _ h0, runCalls_cons_ok _ _ _ _ _ h1]
  obtain ⟨k, -, hk, -, -⟩ := runCalls_declared_take eng ((mainCalls env eng).drop 2)
    { declared := Context.empty.declared ++ [vpcCall (settings env)]
        ++ [clusterCall (settings env) ⟨"eks-vpc", out0⟩],
      exports := Context.empty.exports }
  rw [hk]
  simp [Context.empty]

theorem mainCalls_role (env : Env) (eng : Engine) :
    (mainCalls env eng).filter (fun c => c.fn == "iam.NewRole")
      = [roleCall env (eksClusterOf env eng)] := by
  unfold mainCalls
  cases env.readFile albPolicyPath <;> rfl

theorem main_declares_role (env : Env) (eng : Engine) (out0 out1 out2 : Outputs)
    (h0 : eng (vpcCall (settings env)) = Except.ok out0)
    (h1 : eng (clusterCall (settings env) ⟨"eks-vpc", out0⟩) = Except.ok out1)
    (h2 : eng (roleCall env ⟨"eks-cluster", out1⟩) = Except.ok out2) :
    roleCall env ⟨"eks-cluster", out1⟩ ∈ (main env eng Context.empty).2.declared := by
  obtain ⟨hd, -⟩ := main_runCalls env eng Context.empty
  have hv : eksVpcOf env eng = ⟨"eks-vpc", out0⟩ := by simp [eksVpcOf, outputsOf, h0]
  have hc : eksClusterOf env eng = ⟨"eks-cluster", out1⟩ := by
    simp [eksClusterOf, hv, outputsOf, h1]
  have hm : mainCalls env eng = vpcCall (settings env) ::
      clusterCall (settings env) ⟨"eks-vpc", out0⟩ ::
      roleCall env ⟨"eks-cluster", out1⟩ :: (mainCalls env eng).drop 3 := by
    rw [← hc, ← hv]
    unfold mainCalls headCalls
    rfl
  rw [hd, hm, runCalls_cons_ok _ _ _ _ _ h0, runCalls_cons_ok _ _ _ _ _ h1,
    runCalls_cons_ok _ _ _ _ _ h2]
  obtain ⟨k, -, hk, -, -⟩ := runCalls_declared_take eng ((mainCalls env eng).drop 3)
    { declared := Context.empty.declared ++ [vpcCall (settings env)]
        ++ [clusterCall (settings env) ⟨"eks-vpc", out0⟩]
        ++ [roleCall env ⟨"eks-cluster", out1⟩],
      exports := Context.empty.exports }
  rw [hk]
  simp [Context.empty]

theorem assumeRolePolicyArgs_eq (arn url : String) :
    assumeRolePolicyArgs arn url =
      { Statements := [
          { Effect := some "Allow"
            Actions := ["sts:AssumeRoleWithWebIdentity"]
            Principals := [{ Typ := "Federated", Identifiers := [arn] }]
            Conditions := [
              { Test := "StringEquals"
                Values :=
                  ["system:serviceaccount:aws-lb-controller:aws-lb-controller-serviceaccount"]
                Variable := url ++ ":sub" }] }] } := by
  have h1 : Sprintf "%s:sub" [url] = url ++ ":sub" := rfl
  have h2 : albServiceAccount
      = "system:serviceaccount:aws-lb-controller:aws-lb-controller-serviceaccount" := by
    decide
  simp only [assumeRolePolicyArgs, h1, h2]

theorem main_vpc_cluster_args (env : Env) (eng : Engine) :
    ∀ c ∈ (main env eng Context.empty).2.declared,
      (c.fn = "ec2.NewVpc" →
        c.name = "eks-vpc" ∧
        c.args.field "CidrBlock" = Value.str (settings env).vpcNetworkCidr) ∧
      (c.fn = "eks.NewCluster" →
        c.name = "eks-cluster" ∧
        c.args.field "MinSize" = Value.int (settings env).minClusterSize ∧
        c.args.field "MaxSize" = Value.int (settings env).maxClusterSize ∧
        c.args.field "DesiredCapacity" = Value.int (settings env).desiredClusterSize ∧
        c.args.field "InstanceType" = Value.str (settings env).eksNodeInstanceType) := by
  intro c hc
  have hm := main_declared_mem env eng c hc
  constructor
  · intro hfn
    have : c ∈ (mainCalls env eng).filter (fun c => c.fn == "ec2.NewVpc") :=
      List.mem_filter.mpr ⟨hm, by simp [hfn]⟩
    rw [mainCalls_vpc, List.mem_singleton] at this
    subst this
    exact ⟨rfl, rfl⟩
  · intro hfn
    have : c ∈ (mainCalls env eng).filter (fun c => c.fn == "eks.NewCluster") :=
      List.mem_filter.mpr ⟨hm, by simp [hfn]⟩
    rw [mainCalls_cluster, List.mem_singleton] at this
    subst this
    exact ⟨rfl, rfl, rfl, rfl, rfl⟩

theorem main_vpc_cluster_declared (env : Env) (eng : Engine)
    (hacc : ∀ c, c.fn = "ec2.NewVpc" ∨ c.fn = "eks.NewCluster" →
      ∃ out, eng c = Except.ok out) :
    (∃ c ∈ (main env eng Context.empty).2.declared,
      c.fn = "ec2.NewVpc" ∧ c.name = "eks-vpc" ∧
      c.args.field "CidrBlock" = Value.str (settings env).vpcNetworkCidr) ∧
    (∃ c ∈ (main env eng Context.empty).2.declared,
      c.fn = "eks.NewCluster" ∧ c.name = "eks-cluster" ∧
      c.args.field "MinSize" = Value.int (settings env).minClusterSize ∧
      c.args.field "MaxSize" = Value.int (settings env).maxClusterSize ∧
      c.args.field "DesiredCapacity" = Value.int (settings env).desiredClusterSize ∧
      c.args.field "InstanceType" = Value.str (settings env).eksNodeInstanceType) := by
  obtain ⟨out0, h0⟩ := hacc (vpcCall (settings env)) (Or.inl rfl)
  obtain ⟨out1, h1⟩ := hacc (clusterCall (settings env) ⟨"eks-vpc", out0⟩) (Or.inr rfl)
  obtain ⟨hv, hc⟩ := main_declares_cluster env eng out0 out1 h0 h1
  exact ⟨⟨_, hv, rfl, rfl, rfl⟩, ⟨_, hc, rfl, rfl, rfl, rfl, rfl, rfl⟩⟩

end eks

/-! ## Claims on `NewFlux` -/

namespace gitops

theorem NewFlux_ok (eng : Engine) (name : String) (args : FluxArgs)
    (opts : List ResourceOption) (ctx ctx1 : Context) (flux : Flux)
    (hrun : NewFlux eng name args opts ctx = (Except.ok flux, ctx1)) :
    flux = fluxOf eng name args ∧
      ctx1 = { declared := ctx.declared ++ fluxCalls eng name args opts,
               exports := ctx.exports } ∧
      ∀ c ∈ fluxCalls eng name args opts, ∃ out, eng c = Except.ok out := by
  rw [NewFlux_eq] at hrun
  cases h : (runCalls eng (fluxCalls eng name args opts) ctx).1 with
  | some err => simp [h] at hrun
  | none =>
    obtain ⟨h1, h2⟩ := runCalls_eq_none eng _ ctx h
    simp only [h, Prod.mk.injEq, Except.ok.injEq] at hrun
    exact ⟨hrun.1.symm, by rw [← hrun.2, h1], h2⟩

/-- C4: whichever call of `NewFlux` is the first one the engine rejects
(component registration, Helm release, a deployment patch, GitRepository,
Kustomization, output registration: index `k` in program order), `NewFlux`
returns exactly that error and no component, the registrations made are
exactly the `k` calls preceding it in program order, appended to what was
declared before, and nothing else in the context changes. -/
theorem NewFlux_aborts_at_first_failure (eng : Engine) (name : String) (args : FluxArgs)
    (opts : List ResourceOption) (ctx : Context) (k : Nat) (e : Error)
    (hk : k < (fluxCalls eng name args opts).length)
    (hok : ∀ j, j < k →
      ∃ out, eng ((fluxCalls eng name args opts).getD j default) = Except.ok out)
    (hfail : eng ((fluxCalls eng name args opts).getD k default) = Except.error e) :
    (fluxCalls eng name args opts).length = 11 ∧
    NewFlux eng name args opts ctx =
      (Except.error e,
        { declared := ctx.declared ++ (fluxCalls eng name args opts).take k,
          exports := ctx.exports }) := by
  refine ⟨by simp [fluxCalls, controllers], ?_⟩
  rw [NewFlux_eq, runCalls_first_failure eng _ ctx k e hk hok hfail]

/-- C4, instance: the engine rejects the third deployment patch; `NewFlux`
returns that error after declaring the component, the release and two patches. -/
theorem NewFlux_aborts_at_first_failure_witness :
    (fluxCalls (rejecting "pulumi-notification-controller-patch") "flux" sampleFluxArgs []).length
        = 11 ∧
    NewFlux (rejecting "pulumi-notification-controller-patch") "flux" sampleFluxArgs []
        Context.empty =
      (Except.error ⟨"rejected"⟩,
        { declared := Context.empty.declared ++
            (fluxCalls (rejecting "pulumi-notification-controller-patch") "flux"
              sampleFluxArgs []).take 4,
          exports := Context.empty.exports }) :=
  NewFlux_aborts_at_first_failure (rejecting "pulumi-notification-controller-patch") "flux"
    sampleFluxArgs [] Context.empty 4 ⟨"rejected"⟩ (by decide)
    (by
      intro j hj
      interval_cases j <;> exact ⟨default, rfl⟩)
    rfl

/-- C5, as stated, fails: against an engine that accepts every call and
reports no identity for the objects it creates, `NewFlux` succeeds, the
GitRepository is declared with kind `GitRepository`, and the `sourceRef` of
the Kustomization declared in the same run has a null kind, name and
namespace. -/
theorem sourceRef_is_the_reported_identity :
    (NewFlux accepting "flux" sampleFluxArgs [] Context.empty).1
      = Except.ok (fluxOf accepting "flux" sampleFluxArgs) ∧
    (NewFlux accepting "flux" sampleFluxArgs [] Context.empty).2.declared.map Call.name
      = ["flux", "pulumi-flux2", "pulumi-kustomize-controller-patch",
         "pulumi-helm-controller-patch", "pulumi-notification-controller-patch",
         "pulumi-source-controller-patch", "pulumi-image-reflector-controller-patch",
         "pulumi-image-automation-controller-patch", "pulumi-bootstrap-repo",
         "pulumi-bootstrap-kustomization", "flux"] ∧
    ((NewFlux accepting "flux" sampleFluxArgs [] Context.empty).2.declared.getD 8
        default).args.field "Kind" = Value.str "GitRepository" ∧
    (((((NewFlux accepting "flux" sampleFluxArgs [] Context.empty).2.declared.getD 9
        default).args.field "OtherFields").field "spec").field "sourceRef")
      = Value.map [("kind", Value.null), ("name", Value.null), ("namespace", Value.null)] ∧
    (((((NewFlux accepting "flux" sampleFluxArgs [] Context.empty).2.declared.getD 9
        default).args.field "OtherFields").field "spec").field "sourceRef").field "kind"
      ≠ Value.str "GitRepository" := by
  refine ⟨rfl, rfl, rfl, rfl, ?_⟩
  have h : (((((NewFlux accepting "flux" sampleFluxArgs [] Context.empty).2.declared.getD 9
      default).args.field "OtherFields").field "spec").field "sourceRef").field "kind"
      = Value.null := rfl
  rw [h]
  intro hne
  cases hne

/-- C5, amended: in every successful `NewFlux` run a GitRepository and a
Kustomization are declared, the GitRepository with kind `GitRepository`, name
`bootstrap-repo` and the namespace reported for the Helm release, and the
Kustomization's `spec.sourceRef` holds exactly the kind, name and namespace the
provider reports for that GitRepository resource; with a provider that reports
an object under the identity it was declared with, these are `GitRepository`,
`bootstrap-repo` and the namespace reported for the Helm release, for every
chart version, cluster name and bootstrap coordinates. -/
theorem kustomization_sourceRef_names_repo (eng : Engine) (name : String) (args : FluxArgs)
    (opts : List ResourceOption) (ctx ctx1 : Context) (flux : Flux)
    (hrun : NewFlux eng name args opts ctx = (Except.ok flux, ctx1)) :
    ∃ relOut repoOut : Outputs,
      eng (releaseCall name args) = Except.ok relOut ∧
      eng (repoCall name args ⟨"pulumi-flux2", relOut⟩) = Except.ok repoOut ∧
      repoCall name args ⟨"pulumi-flux2", relOut⟩ ∈ ctx1.declared ∧
      kustomizationCall name args ⟨"pulumi-bootstrap-repo", repoOut⟩ ∈ ctx1.declared ∧
      (∀ sourceRef repo : Value,
        sourceRef = (((kustomizationCall name args ⟨"pulumi-bootstrap-repo", repoOut⟩).args.field
          "OtherFields").field "spec").field "sourceRef" →
        repo = (repoCall name args ⟨"pulumi-flux2", relOut⟩).args →
        (sourceRef.keys = ["kind", "name", "namespace"] ∧
          sourceRef.field "kind" = Value.ofPtr (repoOut.ptr "Kind") ∧
          sourceRef.field "name" = Value.ofPtr (repoOut.ptr "Metadata.Name") ∧
          sourceRef.field "namespace" = Value.ofPtr (repoOut.ptr "Metadata.Namespace") ∧
          repo.field "Kind" = Value.str "GitRepository" ∧
          (repo.field "Metadata").field "Name" = Value.str "bootstrap-repo" ∧
          (repo.field "Metadata").field "Namespace" = Value.ofPtr (relOut.ptr "Namespace")) ∧
        (ReportsDeclaredIdentity eng →
          sourceRef.field "kind" = repo.field "Kind" ∧
          sourceRef.field "name" = (repo.field "Metadata").field "Name" ∧
          sourceRef.field "namespace" = (repo.field "Metadata").field "Namespace" ∧
          sourceRef.field "kind" = Value.str "GitRepository" ∧
          sourceRef.field "name" = Value.str "bootstrap-repo" ∧
          sourceRef.field "namespace" = Value.ofPtr (relOut.ptr "Namespace"))) := by
  obtain ⟨-, hctx, hall⟩ := NewFlux_ok eng name args opts ctx ctx1 flux hrun
  obtain ⟨relOut, hrel⟩ := hall (releaseCall name args) (by simp [fluxCalls])
  have hmem : repoCall name args ⟨"pulumi-flux2", relOut⟩ ∈ fluxCalls eng name args opts := by
    simp [fluxCalls, outputsOf, hrel]
  obtain ⟨repoOut, hrepo⟩ := hall _ hmem
  have hmem2 : kustomizationCall name args ⟨"pulumi-bootstrap-repo", repoOut⟩
      ∈ fluxCalls eng name args opts := by
    simp [fluxCalls, outputsOf, hrel, hrepo]
  refine ⟨relOut, repoOut, hrel, hrepo, ?_, ?_, ?_⟩
  · rw [hctx]; exact List.mem_append_right _ hmem
  · rw [hctx]; exact List.mem_append_right _ hmem2
  · intro sourceRef repo hs hr
    subst hs hr
    have e1 : ((repoCall name args ⟨"pulumi-flux2", relOut⟩).args.field "Kind")
        = Value.str "GitRepository" := rfl
    have e2 : (((repoCall name args ⟨"pulumi-flux2", relOut⟩).args.field "Metadata").field
        "Name") = Value.str "bootstrap-repo" := rfl
    have e3 : (((repoCall name args ⟨"pulumi-flux2", relOut⟩).args.field "Metadata").field
        "Namespace") = Value.ofPtr (relOut.ptr "Namespace") := rfl
    have s1 : ((((kustomizationCall name args ⟨"pulumi-bootstrap-repo", repoOut⟩).args.field
        "OtherFields").field "spec").field "sourceRef").field "kind"
        = Value.ofPtr (repoOut.ptr "Kind") := rfl
    have s2 : ((((kustomizationCall name args ⟨"pulumi-bootstrap-repo", repoOut⟩).args.field
        "OtherFields").field "spec").field "sourceRef").field "name"
        = Value.ofPtr (repoOut.ptr "Metadata.Name") := rfl
    have s3 : ((((kustomizationCall name args ⟨"pulumi-bootstrap-repo", repoOut⟩).args.field
        "OtherFields").field "spec").field "sourceRef").field "namespace"
        = Value.ofPtr (repoOut.ptr "Metadata.Namespace") := rfl
    have t3 : Value.ofPtr ((Value.ofPtr (relOut.ptr "Namespace")).toPtr)
        = Value.ofPtr (relOut.ptr "Namespace") := by
      cases relOut.ptr "Namespace" <;> rfl
    refine ⟨⟨rfl, s1, s2, s3, e1, e2, e3⟩, ?_⟩
    intro hecho
    obtain ⟨hk, hn, hns⟩ := hecho _ repoOut rfl hrepo
    rw [e1] at hk
    rw [e2] at hn
    rw [e3] at hns
    refine ⟨?_, ?_, ?_, ?_, ?_, ?_⟩
    · rw [s1, e1, hk]; rfl
    · rw [s2, e2, hn]; rfl
    · rw [s3, e3, hns, t3]
    · rw [s1, hk]; rfl
    · rw [s2, hn]; rfl
    · rw [s3, hns, t3]

/-- C5, instance: a run against an engine that reports objects as declared;
the `sourceRef` of its Kustomization is `GitRepository`, `bootstrap-repo`,
`flux-system`. -/
theorem kustomization_sourceRef_names_repo_witness :
    ReportsDeclaredIdentity echoing ∧
    (NewFlux echoing "flux" sampleFluxArgs [] Context.empty).1
      = Except.ok (fluxOf echoing "flux" sampleFluxArgs) ∧
    ∃ relOut repoOut : Outputs,
      echoing (releaseCall "flux" sampleFluxArgs) = Except.ok relOut ∧
      echoing (repoCall "flux" sampleFluxArgs ⟨"pulumi-flux2", relOut⟩) = Except.ok repoOut ∧
      kustomizationCall "flux" sampleFluxArgs ⟨"pulumi-bootstrap-repo", repoOut⟩
        ∈ (NewFlux echoing "flux" sampleFluxArgs [] Context.empty).2.declared ∧
      relOut.ptr "Namespace" = some "flux-system" ∧
      ((((kustomizationCall "flux" sampleFluxArgs ⟨"pulumi-bootstrap-repo", repoOut⟩).args.field
        "OtherFields").field "spec").field "sourceRef").field "kind"
          = Value.str "GitRepository" ∧
      ((((kustomizationCall "flux" sampleFluxArgs ⟨"pulumi-bootstrap-repo", repoOut⟩).args.field
        "OtherFields").field "spec").field "sourceRef").field "name"
          = Value.str "bootstrap-repo" ∧
      ((((kustomizationCall "flux" sampleFluxArgs ⟨"pulumi-bootstrap-repo", repoOut⟩).args.field
        "OtherFields").field "spec").field "sourceRef").field "namespace"
          = Value.str "flux-system" := by
  have hecho : ReportsDeclaredIdentity echoing := by
    intro c out _ h
    simp only [echoing, Except.ok.injEq] at h
    subst h
    exact ⟨rfl, rfl, rfl⟩
  obtain ⟨relOut, repoOut, h1, h2, -, h4, h5⟩ :=
    kustomization_sourceRef_names_repo echoing "flux" sampleFluxArgs [] Context.empty
      (NewFlux echoing "flux" sampleFluxArgs [] Context.empty).2
      (fluxOf echoing "flux" sampleFluxArgs) rfl
  obtain ⟨-, hl⟩ := h5 _ _ rfl rfl
  obtain ⟨-, -, -, hkind, hname, hnamespace⟩ := hl hecho
  have hrel : relOut.ptr "Namespace" = some "flux-system" := by
    simp only [echoing, Except.ok.injEq] at h1
    subst h1
    rfl
  rw [hrel] at hnamespace
  exact ⟨hecho, rfl, relOut, repoOut, h1, h2, h4, hrel, hkind, hname, hnamespace⟩

/-- C6: in every successful `NewFlux` run the deployment patches declared are
exactly six, in the order of the controller list: their metadata names are the
six controller names (each the name of exactly one patch), their resource
names are the six pairwise distinct `pulumi-<controller>-patch`, and every
patch carries the label map `backstage.io/kubernetes-id: ClusterName`, the
`pulumi.com/patchForce: "true"` annotation and the namespace reported for the
Helm release. -/
theorem six_patches_one_per_controller (eng : Engine) (name : String) (args : FluxArgs)
    (opts : List ResourceOption) (ctx ctx1 : Context) (flux : Flux)
    (hrun : NewFlux eng name args opts ctx = (Except.ok flux, ctx1)) :
    ∃ (relOut : Outputs) (new patches : List Call),
      eng (releaseCall name args) = Except.ok relOut ∧
      ctx1.declared = ctx.declared ++ new ∧
      patches = new.filter (fun c => c.fn == "v12.NewDeploymentPatch") ∧
      patches.length = 6 ∧
      patches.map (fun p => ((p.args.field "Metadata").field "Name").toPtr)
        = [some "kustomize-controller", some "helm-controller",
           some "notification-controller", some "source-controller",
           some "image-reflector-controller", some "image-automation-controller"] ∧
      (∀ controller ∈ controllers,
        (patches.map (fun p => ((p.args.field "Metadata").field "Name").toPtr)).count
          (some controller) = 1) ∧
      patches.map Call.name
        = ["pulumi-kustomize-controller-patch", "pulumi-helm-controller-patch",
           "pulumi-notification-controller-patch", "pulumi-source-controller-patch",
           "pulumi-image-reflector-controller-patch",
           "pulumi-image-automation-controller-patch"] ∧
      (patches.map Call.name).Nodup ∧
      ∀ p ∈ patches,
        (p.args.field "Metadata").keys = ["Annotations", "Name", "Namespace", "Labels"] ∧
        (p.args.field "Metadata").field "Labels"
          = Value.map [("backstage.io/kubernetes-id", Value.str args.ClusterName)] ∧
        (p.args.field "Metadata").field "Annotations"
          = Value.map [("pulumi.com/patchForce", Value.str "true")] ∧
        (p.args.field "Metadata").field "Namespace" = Value.ofPtr (relOut.ptr "Namespace") := by
  obtain ⟨-, hctx, hall⟩ := NewFlux_ok eng name args opts ctx ctx1 flux hrun
  obtain ⟨relOut, hrel⟩ := hall (releaseCall name args) (by simp [fluxCalls])
  have hp : (fluxCalls eng name args opts).filter (fun c => c.fn == "v12.NewDeploymentPatch")
      = controllers.map (patchCall name args ⟨"pulumi-flux2", relOut⟩) := by
    simp only [fluxCalls, outputsOf, hrel]
    rfl
  refine ⟨relOut, fluxCalls eng name args opts, _, hrel, by rw [hctx], rfl, ?_⟩
  rw [hp]
  have hmeta : (controllers.map (patchCall name args ⟨"pulumi-flux2", relOut⟩)).map
      (fun p => ((p.args.field "Metadata").field "Name").toPtr)
      = [some "kustomize-controller", some "helm-controller",
         some "notification-controller", some "source-controller",
         some "image-reflector-controller", some "image-automation-controller"] := rfl
  have hnames : (controllers.map (patchCall name args ⟨"pulumi-flux2", relOut⟩)).map Call.name
      = ["pulumi-kustomize-controller-patch", "pulumi-helm-controller-patch",
         "pulumi-notification-controller-patch", "pulumi-source-controller-patch",
         "pulumi-image-reflector-controller-patch",
         "pulumi-image-automation-controller-patch"] := rfl
  refine ⟨rfl, hmeta, ?_, hnames, ?_, ?_⟩
  · rw [hmeta]
    decide
  · rw [hnames]
    decide
  · intro p hp
    simp only [controllers, List.map_cons, List.map_nil, List.mem_cons, List.mem_singleton,
      List.not_mem_nil, or_false] at hp
    rcases hp with rfl | rfl | rfl | rfl | rfl | rfl <;> exact ⟨rfl, rfl, rfl, rfl⟩

/-- C6, instance: the patches of a run in which every call is accepted. -/
theorem six_patches_one_per_controller_witness :
    ∃ (relOut : Outputs) (new patches : List Call),
      accepting (releaseCall "flux" sampleFluxArgs) = Except.ok relOut ∧
      (NewFlux accepting "flux" sampleFluxArgs [] Context.empty).2.declared
        = Context.empty.declared ++ new ∧
      patches = new.filter (fun c => c.fn == "v12.NewDeploymentPatch") ∧
      patches.length = 6 ∧
      patches.map (fun p => ((p.args.field "Metadata").field "Name").toPtr)
        = [some "kustomize-controller", some "helm-controller",
           some "notification-controller", some "source-controller",
           some "image-reflector-controller", some "image-automation-controller"] ∧
      (∀ controller ∈ controllers,
        (patches.map (fun p => ((p.args.field "Metadata").field "Name").toPtr)).count
          (some controller) = 1) ∧
      patches.map Call.name
        = ["pulumi-kustomize-controller-patch", "pulumi-helm-controller-patch",
           "pulumi-notification-controller-patch", "pulumi-source-controller-patch",
           "pulumi-image-reflector-controller-patch",
           "pulumi-image-automation-controller-patch"] ∧
      (patches.map Call.name).Nodup ∧
      ∀ p ∈ patches,
        (p.args.field "Metadata").keys = ["Annotations", "Name", "Namespace", "Labels"] ∧
        (p.args.field "Metadata").field "Labels"
          = Value.map [("backstage.io/kubernetes-id", Value.str sampleFluxArgs.ClusterName)] ∧
        (p.args.field "Metadata").field "Annotations"
          = Value.map [("pulumi.com/patchForce", Value.str "true")] ∧
        (p.args.field "Metadata").field "Namespace" = Value.ofPtr (relOut.ptr "Namespace") :=
  six_patches_one_per_controller accepting "flux" sampleFluxArgs [] Context.empty
    (NewFlux accepting "flux" sampleFluxArgs [] Context.empty).2
    (fluxOf accepting "flux" sampleFluxArgs) rfl

end gitops

/-! ## Claims on the EKS-with-Flux program -/

namespace eks

/-- C1, as stated, fails: with an unreadable policy file and an engine that
accepts every call, `main` returns the read error after the VPC, the cluster
and the role have been declared. -/
theorem policy_file_read_follows_declarations :
    noPolicyFile.readFile albPolicyPath = Except.error ⟨"no such file"⟩ ∧
    (main noPolicyFile accepting Context.empty).1 = Except.error ⟨"no such file"⟩ ∧
    (main noPolicyFile accepting Context.empty).2.declared.map Call.name
      = ["eks-vpc", "eks-cluster", "alb-role"] ∧
    (main noPolicyFile accepting Context.empty).2.declared ≠ [] := by
  refine ⟨rfl, rfl, rfl, ?_⟩
  intro h
  have hl : (main noPolicyFile accepting Context.empty).2.declared.length = 3 := rfl
  rw [h] at hl
  exact absurd hl (by decide)

/-- C1, amended: when the policy file cannot be read, `main` returns an error
and what it has declared by then is a prefix of VPC, cluster, role in program
order: all three when the engine accepts them, and the error is then the read
error; fewer when the engine rejects one of them, and the error is then that
rejection. No later resource is declared. -/
theorem main_unreadable_policy_file (env : Env) (eng : Engine) (ctx : Context) (e : Error)
    (hread : env.readFile albPolicyPath = Except.error e) :
    ∃ err k, (main env eng ctx).1 = Except.error err ∧ k ≤ 3 ∧
      (headCalls env eng).length = 3 ∧
      (main env eng ctx).2.declared = ctx.declared ++ (headCalls env eng).take k ∧
      (∀ j, j < k → ∃ out, eng ((headCalls env eng).getD j default) = Except.ok out) ∧
      (k = 3 → err = e) ∧
      (k < 3 → eng ((headCalls env eng).getD k default) = Except.error err) := by
  obtain ⟨hd, hr⟩ := main_runCalls env eng ctx
  have hcalls : mainCalls env eng = headCalls env eng := by simp [mainCalls, hread]
  have hlen : (headCalls env eng).length = 3 := rfl
  rw [hcalls] at hd hr
  cases h : (runCalls eng (headCalls env eng) ctx).1 with
  | none =>
    obtain ⟨h1, h2⟩ := runCalls_eq_none eng _ ctx h
    refine ⟨e, 3, ?_, le_refl 3, hlen, ?_, ?_, fun _ => rfl, fun h3 => absurd h3 (by decide)⟩
    · rw [hr, h, hread]
    · rw [hd, h1, ← hlen, List.take_length]
    · intro j hj
      have hj3 : j < (headCalls env eng).length := by omega
      rw [List.getD_eq_getElem _ _ hj3]
      exact h2 _ (List.getElem_mem _)
  | some err =>
    obtain ⟨k, hk, hf, hok, hdecl⟩ := runCalls_eq_some eng _ ctx err h
    refine ⟨err, k, ?_, by omega, hlen, ?_, hok, fun h3 => by omega, fun _ => hf⟩
    · rw [hr, h]
    · rw [hd, hdecl]

/-- C1, amended, instance: unreadable file, every call accepted. -/
theorem main_unreadable_policy_file_witness :
    noPolicyFile.readFile albPolicyPath = Except.error ⟨"no such file"⟩ ∧
    ∃ err k, (main noPolicyFile accepting Context.empty).1 = Except.error err ∧ k ≤ 3 ∧
      (headCalls noPolicyFile accepting).length = 3 ∧
      (main noPolicyFile accepting Context.empty).2.declared
        = Context.empty.declared ++ (headCalls noPolicyFile accepting).take k ∧
      (∀ j, j < k →
        ∃ out, accepting ((headCalls noPolicyFile accepting).getD j default) = Except.ok out) ∧
      (k = 3 → err = ⟨"no such file"⟩) ∧
      (k < 3 →
        accepting ((headCalls noPolicyFile accepting).getD k default) = Except.error err) :=
  ⟨rfl, main_unreadable_policy_file noPolicyFile accepting Context.empty ⟨"no such file"⟩ rfl⟩

/-- C3: each of the five keys, when absent from the configuration, resolves to
its documented default (3, 6, 3, `t3.medium`, `10.0.0.0/16`), whatever the
other keys hold, and that default is what reaches the declaration: every call
`main` registers as `eks.NewCluster` (for `vpcNetworkCidr`: as `ec2.NewVpc`)
carries it in `MinSize`, `MaxSize`, `DesiredCapacity`, `InstanceType`
(`CidrBlock`), and such a call is registered whenever the engine accepts the
VPC and the cluster. In general both calls carry the resolved values. The
last conjunct is the run with an empty configuration. -/
theorem absent_keys_take_defaults (env : Env) (eng : Engine) :
    (env.config ((Config.New env "").fullKey "minClusterSize") = none →
      (settings env).minClusterSize = 3 ∧
      (∀ c ∈ (main env eng Context.empty).2.declared, c.fn = "eks.NewCluster" →
        c.args.field "MinSize" = Value.int 3) ∧
      ((∀ c, c.fn = "ec2.NewVpc" ∨ c.fn = "eks.NewCluster" → ∃ out, eng c = Except.ok out) →
        ∃ c ∈ (main env eng Context.empty).2.declared,
          c.fn = "eks.NewCluster" ∧ c.name = "eks-cluster" ∧
          c.args.field "MinSize" = Value.int 3)) ∧
    (env.config ((Config.New env "").fullKey "maxClusterSize") = none →
      (settings env).maxClusterSize = 6 ∧
      (∀ c ∈ (main env eng Context.empty).2.declared, c.fn = "eks.NewCluster" →
        c.args.field "MaxSize" = Value.int 6) ∧
      ((∀ c, c.fn = "ec2.NewVpc" ∨ c.fn = "eks.NewCluster" → ∃ out, eng c = Except.ok out) →
        ∃ c ∈ (main env eng Context.empty).2.declared,
          c.fn = "eks.NewCluster" ∧ c.name = "eks-cluster" ∧
          c.args.field "MaxSize" = Value.int 6)) ∧
    (env.config ((Config.New env "").fullKey "desiredClusterSize") = none →
      (settings env).desiredClusterSize = 3 ∧
      (∀ c ∈ (main env eng Context.empty).2.declared, c.fn = "eks.NewCluster" →
        c.args.field "DesiredCapacity" = Value.int 3) ∧
      ((∀ c, c.fn = "ec2.NewVpc" ∨ c.fn = "eks.NewCluster" → ∃ out, eng c = Except.ok out) →
        ∃ c ∈ (main env eng Context.empty).2.declared,
          c.fn = "eks.NewCluster" ∧ c.name = "eks-cluster" ∧
          c.args.field "DesiredCapacity" = Value.int 3)) ∧
    (env.config ((Config.New env "").fullKey "eksNodeInstanceType") = none →
      (settings env).eksNodeInstanceType = "t3.medium" ∧
      (∀ c ∈ (main env eng Context.empty).2.declared, c.fn = "eks.NewCluster" →
        c.args.field "InstanceType" = Value.str "t3.medium") ∧
      ((∀ c, c.fn = "ec2.NewVpc" ∨ c.fn = "eks.NewCluster" → ∃ out, eng c = Except.ok out) →
        ∃ c ∈ (main env eng Context.empty).2.declared,
          c.fn = "eks.NewCluster" ∧ c.name = "eks-cluster" ∧
          c.args.field "InstanceType" = Value.str "t3.medium")) ∧
    (env.config ((Config.New env "").fullKey "vpcNetworkCidr") = none →
      (settings env).vpcNetworkCidr = "10.0.0.0/16" ∧
      (∀ c ∈ (main env eng Context.empty).2.declared, c.fn = "ec2.NewVpc" →
        c.args.field "CidrBlock" = Value.str "10.0.0.0/16") ∧
      ((∀ c, c.fn = "ec2.NewVpc" ∨ c.fn = "eks.NewCluster" → ∃ out, eng c = Except.ok out) →
        ∃ c ∈ (main env eng Context.empty).2.declared,
          c.fn = "ec2.NewVpc" ∧ c.name = "eks-vpc" ∧
          c.args.field "CidrBlock" = Value.str "10.0.0.0/16")) ∧
    (∀ c ∈ (main env eng Context.empty).2.declared,
      (c.fn = "ec2.NewVpc" →
        c.name = "eks-vpc" ∧
        c.args.field "CidrBlock" = Value.str (settings env).vpcNetworkCidr) ∧
      (c.fn = "eks.NewCluster" →
        c.name = "eks-cluster" ∧
        c.args.field "MinSize" = Value.int (settings env).minClusterSize ∧
        c.args.field "MaxSize" = Value.int (settings env).maxClusterSize ∧
        c.args.field "DesiredCapacity" = Value.int (settings env).desiredClusterSize ∧
        c.args.field "InstanceType" = Value.str (settings env).eksNodeInstanceType)) ∧
    ((∀ c, c.fn = "ec2.NewVpc" ∨ c.fn = "eks.NewCluster" → ∃ out, eng c = Except.ok out) →
      (∃ c ∈ (main env eng Context.empty).2.declared,
        c.fn = "ec2.NewVpc" ∧ c.name = "eks-vpc" ∧
        c.args.field "CidrBlock" = Value.str (settings env).vpcNetworkCidr) ∧
      (∃ c ∈ (main env eng Context.empty).2.declared,
        c.fn = "eks.NewCluster" ∧ c.name = "eks-cluster" ∧
        c.args.field "MinSize" = Value.int (settings env).minClusterSize ∧
        c.args.field "MaxSize" = Value.int (settings env).maxClusterSize ∧
        c.args.field "DesiredCapacity" = Value.int (settings env).desiredClusterSize ∧
        c.args.field "InstanceType" = Value.str (settings env).eksNodeInstanceType)) ∧
    ((main sampleEnv accepting Context.empty).2.declared.map
        (fun c => (c.fn, c.name)) |>.take 2)
      = [("ec2.NewVpc", "eks-vpc"), ("eks.NewCluster", "eks-cluster")] ∧
    ((main sampleEnv accepting Context.empty).2.declared.getD 0 default).args
      = Value.map [("EnableDnsHostnames", Value.bool true),
                   ("CidrBlock", Value.str "10.0.0.0/16")] ∧
    ((main sampleEnv accepting Context.empty).2.declared.getD 1 default).args
      = Value.map [("VpcId", Value.str ""), ("PublicSubnetIds", Value.list []),
                   ("PrivateSubnetIds", Value.list []),
                   ("InstanceType", Value.str "t3.medium"),
                   ("DesiredCapacity", Value.int 3), ("MinSize", Value.int 3),
                   ("MaxSize", Value.int 6),
                   ("NodeAssociatePublicIpAddress", Value.bool false),
                   ("Name", Value.str "quick-brown-fox"),
                   ("CreateOidcProvider", Value.bool true)] := by
  have G1 := main_vpc_cluster_args env eng
  have G2 := main_vpc_cluster_declared env eng
  refine ⟨?_, ?_, ?_, ?_, ?_, G1, G2, rfl, rfl, rfl⟩
  · intro h
    have hs : (settings env).minClusterSize = 3 := by
      simp only [settings, Config.TryInt, Config.Try, h]
    refine ⟨hs, fun c hc hfn => ?_, fun hacc => ?_⟩
    · rw [((G1 c hc).2 hfn).2.1, hs]
    · obtain ⟨-, c, hc, hfn, hname, hmin, -, -, -⟩ := G2 hacc
      exact ⟨c, hc, hfn, hname, by rw [hmin, hs]⟩
  · intro h
    have hs : (settings env).maxClusterSize = 6 := by
      simp only [settings, Config.TryInt, Config.Try, h]
    refine ⟨hs, fun c hc hfn => ?_, fun hacc => ?_⟩
    · rw [((G1 c hc).2 hfn).2.2.1, hs]
    · obtain ⟨-, c, hc, hfn, hname, -, hmax, -, -⟩ := G2 hacc
      exact ⟨c, hc, hfn, hname, by rw [hmax, hs]⟩
  · intro h
    have hs : (settings env).desiredClusterSize = 3 := by
      simp only [settings, Config.TryInt, Config.Try, h]
    refine ⟨hs, fun c hc hfn => ?_, fun hacc => ?_⟩
    · rw [((G1 c hc).2 hfn).2.2.2.1, hs]
    · obtain ⟨-, c, hc, hfn, hname, -, -, hdes, -⟩ := G2 hacc
      exact ⟨c, hc, hfn, hname, by rw [hdes, hs]⟩
  · intro h
    have hs : (settings env).eksNodeInstanceType = "t3.medium" := by
      simp only [settings, Config.Try, h]
    refine ⟨hs, fun c hc hfn => ?_, fun hacc => ?_⟩
    · rw [((G1 c hc).2 hfn).2.2.2.2, hs]
    · obtain ⟨-, c, hc, hfn, hname, -, -, -, hinst⟩ := G2 hacc
      exact ⟨c, hc, hfn, hname, by rw [hinst, hs]⟩
  · intro h
    have hs : (settings env).vpcNetworkCidr = "10.0.0.0/16" := by
      simp only [settings, Config.Try, h]
    refine ⟨hs, fun c hc hfn => ?_, fun hacc => ?_⟩
    · rw [((G1 c hc).1 hfn).2, hs]
    · obtain ⟨⟨c, hc, hfn, hname, hcidr⟩, -⟩ := G2 hacc
      exact ⟨c, hc, hfn, hname, by rw [hcidr, hs]⟩

/-- C7: in every run of `main` in which the engine accepts the VPC, the
cluster and the role, exactly one role is declared, named `alb-role`, and its
`AssumeRolePolicy` is the document `GetPolicyDocument` returns for the request
with one statement: effect `Allow`, the single action
`sts:AssumeRoleWithWebIdentity`, the single principal `Federated` whose only
identifier is the OIDC provider ARN reported for the cluster declared in that
run, and the single condition `StringEquals` on the variable `<issuer URL>:sub`
with the single value
`system:serviceaccount:aws-lb-controller:aws-lb-controller-serviceaccount`.
The request has this shape for every ARN and URL. -/
theorem trust_policy_statement (env : Env) (eng : Engine)
    (hacc : ∀ c, c.fn = "ec2.NewVpc" ∨ c.fn = "eks.NewCluster" ∨ c.fn = "iam.NewRole" →
      ∃ out, eng c = Except.ok out) :
    (∀ arn url : String, assumeRolePolicyArgs arn url =
      { Statements := [
          { Effect := some "Allow"
            Actions := ["sts:AssumeRoleWithWebIdentity"]
            Principals := [{ Typ := "Federated", Identifiers := [arn] }]
            Conditions := [
              { Test := "StringEquals"
                Values :=
                  ["system:serviceaccount:aws-lb-controller:aws-lb-controller-serviceaccount"]
                Variable := url ++ ":sub" }] }] }) ∧
    ∃ (cluster role : Call) (clusterOut : Outputs),
      cluster ∈ (main env eng Context.empty).2.declared ∧
      cluster.fn = "eks.NewCluster" ∧
      (∀ c ∈ (main env eng Context.empty).2.declared, c.fn = "eks.NewCluster" → c = cluster) ∧
      eng cluster = Except.ok clusterOut ∧
      role ∈ (main env eng Context.empty).2.declared ∧
      role.fn = "iam.NewRole" ∧ role.name = "alb-role" ∧
      (∀ c ∈ (main env eng Context.empty).2.declared, c.fn = "iam.NewRole" → c = role) ∧
      role.args = Value.map [("AssumeRolePolicy",
        match (env.getPolicyDocument
          { Statements := [
              { Effect := some "Allow"
                Actions := ["sts:AssumeRoleWithWebIdentity"]
                Principals := [
                  { Typ := "Federated"
                    Identifiers := [clusterOut.str "Core.OidcProvider.Arn"] }]
                Conditions := [
                  { Test := "StringEquals"
                    Values :=
                      ["system:serviceaccount:aws-lb-controller:aws-lb-controller-serviceaccount"]
                    Variable := clusterOut.str "Core.OidcProvider.Url" ++ ":sub" }] }] }).1 with
        | some doc => Value.str doc.Json
        | none => Value.unresolved)] := by
  refine ⟨assumeRolePolicyArgs_eq, ?_⟩
  obtain ⟨out0, h0⟩ := hacc (vpcCall (settings env)) (Or.inl rfl)
  obtain ⟨out1, h1⟩ := hacc (clusterCall (settings env) ⟨"eks-vpc", out0⟩) (Or.inr (Or.inl rfl))
  obtain ⟨out2, h2⟩ := hacc (roleCall env ⟨"eks-cluster", out1⟩) (Or.inr (Or.inr rfl))
  have hv : eksVpcOf env eng = ⟨"eks-vpc", out0⟩ := by simp [eksVpcOf, outputsOf, h0]
  have hc : eksClusterOf env eng = ⟨"eks-cluster", out1⟩ := by
    simp [eksClusterOf, hv, outputsOf, h1]
  refine ⟨clusterCall (settings env) ⟨"eks-vpc", out0⟩, roleCall env ⟨"eks-cluster", out1⟩, out1,
    (main_declares_cluster env eng out0 out1 h0 h1).2, rfl, ?_, h1,
    main_declares_role env eng out0 out1 out2 h0 h1 h2, rfl, rfl, ?_, ?_⟩
  · intro c hcm hfn
    have : c ∈ (mainCalls env eng).filter (fun c => c.fn == "eks.NewCluster") :=
      List.mem_filter.mpr ⟨main_declared_mem env eng c hcm, by simp [hfn]⟩
    rw [mainCalls_cluster, List.mem_singleton, hv] at this
    exact this
  · intro c hcm hfn
    have : c ∈ (mainCalls env eng).filter (fun c => c.fn == "iam.NewRole") :=
      List.mem_filter.mpr ⟨main_declared_mem env eng c hcm, by simp [hfn]⟩
    rw [mainCalls_role, List.mem_singleton, hc] at this
    exact this
  · simp only [roleCall, assumeRolePolicy, assumeRolePolicyArgs_eq]
    generalize (env.getPolicyDocument _).1 = r
    cases r <;> rfl

set_option maxRecDepth 100000 in
/-- C7, instance: `GetPolicyDocument` returns the rendering of its request and
the engine reports a fixed OIDC provider; the role declared by `main` carries
the rendering of the trust policy for that provider. -/
theorem trust_policy_statement_witness :
    ∃ role ∈ (main renderingEnv oidcEngine Context.empty).2.declared,
      role.fn = "iam.NewRole" ∧ role.name = "alb-role" ∧
      role.args = Value.map [("AssumeRolePolicy", Value.str
        ("Allow|sts:AssumeRoleWithWebIdentity"
          ++ "|Federated,arn:aws:iam::123456789012:oidc-provider/oidc.example"
          ++ "|StringEquals,oidc.example/id/EXAMPLE:sub"
          ++ ",system:serviceaccount:aws-lb-controller:aws-lb-controller-serviceaccount"))] := by
  obtain ⟨-, cluster, role, clusterOut, -, -, -, hce, hrm, hrf, hrn, -, hargs⟩ :=
    trust_policy_statement renderingEnv oidcEngine (fun _ _ => ⟨_, rfl⟩)
  simp only [oidcEngine, Except.ok.injEq] at hce
  subst hce
  exact ⟨role, hrm, hrf, hrn, hargs.trans rfl⟩

set_option maxRecDepth 100000 in
theorem valuesYaml_render (n r a v : String) :
    Sprintf valuesYamlFormat [n, r, a, v]
      = "clusterName: " ++ n ++ "\nregion: " ++ r
        ++ "\nserviceAccount:\n  annotations:\n    eks.amazonaws.com/role-arn: " ++ a
        ++ "\nvpcId: " ++ v := by
  have hdata : (Sprintf valuesYamlFormat [n, r, a, v]).data
      = "clusterName: ".data ++ (n.data ++ ("\nregion: ".data ++ (r.data ++
        ("\nserviceAccount:\n  annotations:\n    eks.amazonaws.com/role-arn: ".data ++
          (a.data ++ ("\nvpcId: ".data ++ (v.data ++ []))))))) := rfl
  apply String.ext
  rw [hdata]
  simp only [String.data_append, List.append_nil, List.append_assoc]

/-- C8: in every successful run of `main` there is exactly one Secret, one
Flux Helm release and one registration of the Flux component's outputs; the
Secret is named `aws-load-balancer-controller-values`, its namespace is the
output `namespace` registered for the Flux component, and that output is what
the engine reports as the namespace of the Helm release, dereferenced by `Elem`. -/
theorem secret_namespace_is_release_namespace (env : Env) (eng : Engine) (ctx1 : Context)
    (hrun : main env eng Context.empty = (Except.ok (), ctx1)) :
    ∃ (secret release outputs : Call) (relOut : Outputs),
      ctx1.declared.filter (fun c => c.fn == "v1.NewSecret") = [secret] ∧
      ctx1.declared.filter (fun c => c.fn == "helm.NewRelease") = [release] ∧
      ctx1.declared.filter (fun c => c.fn == "ctx.RegisterResourceOutputs") = [outputs] ∧
      (secret.args.field "Metadata").field "Name"
        = Value.str "aws-load-balancer-controller-values" ∧
      eng release = Except.ok relOut ∧
      (secret.args.field "Metadata").field "Namespace" = outputs.args.field "namespace" ∧
      outputs.args.field "namespace" = Value.str (Elem (relOut.ptr "Namespace")) ∧
      ∀ ns, relOut.ptr "Namespace" = some ns →
        (secret.args.field "Metadata").field "Namespace" = Value.str ns := by
  obtain ⟨f, -, hdecl, hall⟩ := main_ok env eng Context.empty ctx1 hrun
  obtain ⟨relOut, hrel⟩ := hall (gitops.releaseCall "flux" (fluxArgs (eksClusterOf env eng)))
    (by simp [tailCalls, gitops.fluxCalls])
  have hns : (gitops.fluxOf eng "flux" (fluxArgs (eksClusterOf env eng))).Namespace
      = Elem (relOut.ptr "Namespace") := by
    simp [gitops.fluxOf, outputsOf, hrel]
  refine ⟨secretOf env eng, gitops.releaseCall "flux" (fluxArgs (eksClusterOf env eng)),
    gitops.outputsCall (gitops.fluxOf eng "flux" (fluxArgs (eksClusterOf env eng))), relOut,
    by rw [hdecl]; rfl, by rw [hdecl]; rfl, by rw [hdecl]; rfl, rfl, hrel, rfl, ?_, ?_⟩
  · show Value.str (gitops.fluxOf eng "flux" (fluxArgs (eksClusterOf env eng))).Namespace = _
    rw [hns]
  · intro ns h
    show Value.str (gitops.fluxOf eng "flux" (fluxArgs (eksClusterOf env eng))).Namespace = _
    rw [hns, h]
    rfl

/-- C8, instance: the run of the sample environment against an engine that
accepts every call and reports the declared namespace. -/
theorem secret_namespace_is_release_namespace_witness :
    ∃ (secret release outputs : Call) (relOut : Outputs),
      (main sampleEnv echoing Context.empty).2.declared.filter
        (fun c => c.fn == "v1.NewSecret") = [secret] ∧
      (main sampleEnv echoing Context.empty).2.declared.filter
        (fun c => c.fn == "helm.NewRelease") = [release] ∧
      (main sampleEnv echoing Context.empty).2.declared.filter
        (fun c => c.fn == "ctx.RegisterResourceOutputs") = [outputs] ∧
      (secret.args.field "Metadata").field "Name"
        = Value.str "aws-load-balancer-controller-values" ∧
      echoing release = Except.ok relOut ∧
      (secret.args.field "Metadata").field "Namespace" = outputs.args.field "namespace" ∧
      outputs.args.field "namespace" = Value.str (Elem (relOut.ptr "Namespace")) ∧
      ∀ ns, relOut.ptr "Namespace" = some ns →
        (secret.args.field "Metadata").field "Namespace" = Value.str ns :=
  secret_namespace_is_release_namespace sampleEnv echoing
    (main sampleEnv echoing Context.empty).2 rfl

/-- C9: for every cluster name, region, role ARN and VPC id the rendered
document is exactly `clusterName: n`, `region: r`, `serviceAccount:`,
`  annotations:`, `    eks.amazonaws.com/role-arn: a`, `vpcId: v`, one per
line; and in every successful run the Secret's string data is the single
entry `values.yaml` holding that document for the name reported for the
cluster, the configured `aws:region`, the ARN reported for the role and the id
reported for the VPC. -/
theorem secret_values_yaml (env : Env) (eng : Engine) (ctx1 : Context)
    (hrun : main env eng Context.empty = (Except.ok (), ctx1)) :
    (∀ n r a v : String,
      Sprintf valuesYamlFormat [n, r, a, v]
        = "clusterName: " ++ n ++ "\nregion: " ++ r
          ++ "\nserviceAccount:\n  annotations:\n    eks.amazonaws.com/role-arn: " ++ a
          ++ "\nvpcId: " ++ v) ∧
    ∃ (secret : Call) (vpcOut clusterOut roleOut : Outputs),
      ctx1.declared.filter (fun c => c.fn == "v1.NewSecret") = [secret] ∧
      eng (vpcCall (settings env)) = Except.ok vpcOut ∧
      eng (clusterCall (settings env) ⟨"eks-vpc", vpcOut⟩) = Except.ok clusterOut ∧
      eng (roleCall env ⟨"eks-cluster", clusterOut⟩) = Except.ok roleOut ∧
      secret.args.field "StringData" = Value.map [("values.yaml", Value.str
        ("clusterName: " ++ clusterOut.str "EksCluster.Name"
          ++ "\nregion: " ++ (env.config "aws:region").getD ""
          ++ "\nserviceAccount:\n  annotations:\n    eks.amazonaws.com/role-arn: "
          ++ roleOut.str "Arn"
          ++ "\nvpcId: " ++ vpcOut.str "VpcId"))] := by
  have hfmt := valuesYaml_render
  refine ⟨hfmt, ?_⟩
  obtain ⟨f, -, hdecl, hall⟩ := main_ok env eng Context.empty ctx1 hrun
  obtain ⟨vpcOut, hvpc⟩ := hall (vpcCall (settings env)) (by simp [headCalls])
  have hv : eksVpcOf env eng = ⟨"eks-vpc", vpcOut⟩ := by simp [eksVpcOf, outputsOf, hvpc]
  obtain ⟨clusterOut, hcl⟩ := hall (clusterCall (settings env) (eksVpcOf env eng))
    (by simp [headCalls])
  have hc : eksClusterOf env eng = ⟨"eks-cluster", clusterOut⟩ := by
    simp [eksClusterOf, outputsOf, hcl]
  obtain ⟨roleOut, hrole⟩ := hall (roleCall env (eksClusterOf env eng)) (by simp [headCalls])
  have hr : albRoleOf env eng = ⟨"alb-role", roleOut⟩ := by
    simp [albRoleOf, outputsOf, hrole]
  refine ⟨secretOf env eng, vpcOut, clusterOut, roleOut, by rw [hdecl]; rfl, hvpc,
    by rw [← hv]; exact hcl, by rw [← hc]; exact hrole, ?_⟩
  show Value.map [("values.yaml", Value.str (Sprintf valuesYamlFormat
    [(eksClusterOf env eng).out.str "EksCluster.Name", (Config.New env "aws").Get env "region",
      (albRoleOf env eng).out.str "Arn", (eksVpcOf env eng).out.str "VpcId"]))] = _
  rw [hfmt, hv, hc, hr]
  rfl

/-- C9, instance: the run of the sample environment against an engine that
accepts every call. -/
theorem secret_values_yaml_witness :
    (∀ n r a v : String,
      Sprintf valuesYamlFormat [n, r, a, v]
        = "clusterName: " ++ n ++ "\nregion: " ++ r
          ++ "\nserviceAccount:\n  annotations:\n    eks.amazonaws.com/role-arn: " ++ a
          ++ "\nvpcId: " ++ v) ∧
    ∃ (secret : Call) (vpcOut clusterOut roleOut : Outputs),
      (main sampleEnv accepting Context.empty).2.declared.filter
        (fun c => c.fn == "v1.NewSecret") = [secret] ∧
      accepting (vpcCall (settings sampleEnv)) = Except.ok vpcOut ∧
      accepting (clusterCall (settings sampleEnv) ⟨"eks-vpc", vpcOut⟩) = Except.ok clusterOut ∧
      accepting (roleCall sampleEnv ⟨"eks-cluster", clusterOut⟩) = Except.ok roleOut ∧
      secret.args.field "StringData" = Value.map [("values.yaml", Value.str
        ("clusterName: " ++ clusterOut.str "EksCluster.Name"
          ++ "\nregion: " ++ (sampleEnv.config "aws:region").getD ""
          ++ "\nserviceAccount:\n  annotations:\n    eks.amazonaws.com/role-arn: "
          ++ roleOut.str "Arn"
          ++ "\nvpcId: " ++ vpcOut.str "VpcId"))] :=
  secret_values_yaml sampleEnv accepting (main sampleEnv accepting Context.empty).2 rfl

/-- C10: each of the three sizes resolves to the configured value when the
key is present and `cast.ToIntE` accepts it, and to its default (3, 6, 3)
otherwise, a present but unparsable value included; an error returned by
`main` is always the error of a rejected engine call or of the file read,
never one of a configuration lookup, and `main` succeeds whenever every call
is accepted and the file is readable; the cluster is declared with the
resolved sizes as they are, with no check of their order: with minimum 9,
maximum 1 and desired 5 the run succeeds and declares exactly those. -/
theorem config_lookup_never_fails (env : Env) (eng : Engine) :
    (settings env).minClusterSize =
      (match env.config ((Config.New env "").fullKey "minClusterSize") with
       | some v => (match env.toIntE v with
         | some n => n
         | none => 3)
       | none => 3) ∧
    (settings env).maxClusterSize =
      (match env.config ((Config.New env "").fullKey "maxClusterSize") with
       | some v => (match env.toIntE v with
         | some n => n
         | none => 6)
       | none => 6) ∧
    (settings env).desiredClusterSize =
      (match env.config ((Config.New env "").fullKey "desiredClusterSize") with
       | some v => (match env.toIntE v with
         | some n => n
         | none => 3)
       | none => 3) ∧
    (∀ err, (main env eng Context.empty).1 = Except.error err →
      (∃ c, eng c = Except.error err) ∨ env.readFile albPolicyPath = Except.error err) ∧
    ((∀ c, ∃ out, eng c = Except.ok out) → (∃ f, env.readFile albPolicyPath = Except.ok f) →
      (main env eng Context.empty).1 = Except.ok ()) ∧
    (∀ out0 out1, eng (vpcCall (settings env)) = Except.ok out0 →
      eng (clusterCall (settings env) ⟨"eks-vpc", out0⟩) = Except.ok out1 →
      ∃ c ∈ (main env eng Context.empty).2.declared, c.fn = "eks.NewCluster" ∧
        c.args.field "MinSize" = Value.int (settings env).minClusterSize ∧
        c.args.field "MaxSize" = Value.int (settings env).maxClusterSize ∧
        c.args.field "DesiredCapacity" = Value.int (settings env).desiredClusterSize) ∧
    ((main unorderedSizes accepting Context.empty).1 = Except.ok () ∧
      ∃ c ∈ (main unorderedSizes accepting Context.empty).2.declared,
        c.fn = "eks.NewCluster" ∧
        c.args.field "MinSize" = Value.int 9 ∧
        c.args.field "MaxSize" = Value.int 1 ∧
        c.args.field "DesiredCapacity" = Value.int 5) := by
  obtain ⟨-, hr⟩ := main_runCalls env eng Context.empty
  refine ⟨?_, ?_, ?_, ?_, ?_, ?_, ?_⟩
  · cases h1 : env.config ((Config.New env "").fullKey "minClusterSize") with
    | none => simp only [settings, Config.TryInt, Config.Try, h1]
    | some v =>
      cases h2 : env.toIntE v <;> simp only [settings, Config.TryInt, Config.Try, h1, h2]
  · cases h1 : env.config ((Config.New env "").fullKey "maxClusterSize") with
    | none => simp only [settings, Config.TryInt, Config.Try, h1]
    | some v =>
      cases h2 : env.toIntE v <;> simp only [settings, Config.TryInt, Config.Try, h1, h2]
  · cases h1 : env.config ((Config.New env "").fullKey "desiredClusterSize") with
    | none => simp only [settings, Config.TryInt, Config.Try, h1]
    | some v =>
      cases h2 : env.toIntE v <;> simp only [settings, Config.TryInt, Config.Try, h1, h2]
  · intro err herr
    rw [hr] at herr
    cases h : (runCalls eng (mainCalls env eng) Context.empty).1 with
    | some e =>
      rw [h] at herr
      simp only [Except.error.injEq] at herr
      subst herr
      obtain ⟨k, -, hf, -, -⟩ := runCalls_eq_some eng _ Context.empty e h
      exact Or.inl ⟨_, hf⟩
    | none =>
      rw [h] at herr
      cases hf : env.readFile albPolicyPath with
      | ok f => rw [hf] at herr; cases herr
      | error e =>
        rw [hf] at herr
        simp only [Except.error.injEq] at herr
        subst herr
        exact Or.inr rfl
  · intro hall hfile
    obtain ⟨f, hf⟩ := hfile
    rw [hr, (runCalls_all_ok eng (mainCalls env eng) Context.empty (fun c _ => hall c)), hf]
  · intro out0 out1 h0 h1
    exact ⟨_, (main_declares_cluster env eng out0 out1 h0 h1).2, rfl, rfl, rfl, rfl⟩
  · exact ⟨rfl, clusterCall (settings unorderedSizes) (eksVpcOf unorderedSizes accepting),
      by
        have h : (main unorderedSizes accepting Context.empty).2.declared
            = headCalls unorderedSizes accepting
              ++ tailCalls unorderedSizes accepting "\x7b\x7d" := rfl
        rw [h]
        simp [headCalls],
      rfl, rfl, rfl, rfl⟩

end eks

/-! ## Error propagation across the programs -/

/-- C2, evaluated where it fails. In the Fargate program the engine rejects
`NewFargateService`; `main` still exports `frontendURL` and returns no error,
with only the cluster and the load balancer declared. In the EKS program
`GetPolicyDocument` returns an error and no document; `main` neither stops nor
returns it: the role is declared with a policy that does not resolve, and every
later registration and the export go through. -/
theorem dropped_errors_do_not_stop_the_pass :
    rejectingFn "ecs2.NewFargateService"
        (fargate.serviceCall ⟨"ecs", default⟩ ⟨"web", default⟩)
      = Except.error ⟨"rejected"⟩ ∧
    (fargate.main (rejectingFn "ecs2.NewFargateService") Context.empty).1 = Except.ok () ∧
    (fargate.main (rejectingFn "ecs2.NewFargateService") Context.empty).2.declared.map Call.fn
      = ["ecs.NewCluster", "lb.NewApplicationLoadBalancer"] ∧
    (fargate.main (rejectingFn "ecs2.NewFargateService") Context.empty).2.exports.map Prod.fst
      = ["frontendURL"] ∧
    (policyLookupFails.getPolicyDocument (eks.assumeRolePolicyArgs "" "")).2
      = some ⟨"invoke failed"⟩ ∧
    (eks.main policyLookupFails accepting Context.empty).1 = Except.ok () ∧
    (eks.main policyLookupFails accepting Context.empty).2.declared.map Call.name
      = ["eks-vpc", "eks-cluster", "alb-role", "alb-policy", "alb-role-attachment",
         "kubernetes-provider", "flux", "pulumi-flux2", "pulumi-kustomize-controller-patch",
         "pulumi-helm-controller-patch", "pulumi-notification-controller-patch",
         "pulumi-source-controller-patch", "pulumi-image-reflector-controller-patch",
         "pulumi-image-automation-controller-patch", "pulumi-bootstrap-repo",
         "pulumi-bootstrap-kustomization", "flux", "aws-lb-controller-secret"] ∧
    ((eks.main policyLookupFails accepting Context.empty).2.declared.getD 2 default).args
      = Value.map [("AssumeRolePolicy", Value.unresolved)] ∧
    (eks.main policyLookupFails accepting Context.empty).2.exports.map Prod.fst
      = ["kubeconfig"] :=
  ⟨rfl, rfl, rfl, rfl, rfl, rfl, rfl, rfl, rfl⟩

end PulumiTemplates
